import Mathlib

/-!
Verification of the flashscore match-extraction and persistence core.

The definitions below are a shallow embedding of the repository's two core
modules:

* `app/extract_matches.py` — field parsers, tree locator, record builder,
  extraction orchestrator;
* `db/database.py` — entity resolver (`get_or_create_league`,
  `get_or_create_team`) and the keyed upsert store
  (`insert_or_update_match`), over an explicit relational state.

HTML documents are modelled as a mutually inductive element tree (the
output of BeautifulSoup's parse), SQL tables as lists of typed rows, and
`CURRENT_TIMESTAMP` as an explicit `now : Nat` parameter.  Python string
primitives used by the source (`strip`, `in`, `startswith`, `replace`,
`int(...)`, `datetime.fromisoformat`, the two regular expressions) are
embedded as executable character-list functions.
-/

/-! ## Python string primitives -/

/-- Characters stripped by Python's `str.strip()` (ASCII whitespace set). -/
def isPyWs (c : Char) : Bool :=
  c = ' ' || c = '\t' || c = '\n' || c = '\r' || c = Char.ofNat 11 || c = Char.ofNat 12

/-- Python `str.strip()`. -/
def pyStrip (s : String) : String :=
  ⟨((s.data.dropWhile isPyWs).reverse.dropWhile isPyWs).reverse⟩

/-- Does the first list start with the second? -/
def charsStartWith : List Char → List Char → Bool
  | _, [] => true
  | [], _ :: _ => false
  | c :: cs, p :: ps => c = p && charsStartWith cs ps

/-- Python substring test `needle in hay` on character lists. -/
def charsContain (hay needle : List Char) : Bool :=
  match hay with
  | [] => needle.isEmpty
  | _ :: t => charsStartWith hay needle || charsContain t needle

/-- Python `needle in hay` for strings. -/
def pyContains (hay needle : String) : Bool :=
  charsContain hay.data needle.data

/-- Python `s.startswith(p)`. -/
def pyStartsWith (s p : String) : Bool :=
  charsStartWith s.data p.data

/-- Fuel-driven core of Python `str.replace(pat, "")`: removes every
non-overlapping occurrence of `pat`, scanning left to right. -/
def charsRemoveAll : Nat → List Char → List Char → List Char
  | 0, _, _ => []
  | _ + 1, [], _ => []
  | fuel + 1, c :: t, pat =>
    if !pat.isEmpty && charsStartWith (c :: t) pat then
      charsRemoveAll fuel ((c :: t).drop pat.length) pat
    else
      c :: charsRemoveAll fuel t pat

/-- Python `s.replace(pat, "")`. -/
def pyRemoveAll (s pat : String) : String :=
  ⟨charsRemoveAll (s.data.length + 1) s.data pat.data⟩

/-- ASCII upper-casing, Python `str.upper()` restricted to the ASCII range
the stage tokens use. -/
def pyUpper (s : String) : String :=
  ⟨s.data.map Char.toUpper⟩

/-- Numeric value of a digit character. -/
def digitVal (c : Char) : Nat := c.toNat - 48

/-- Value of a nonempty digit string. -/
def digitsVal (cs : List Char) : Nat :=
  cs.foldl (fun a c => a * 10 + digitVal c) 0

/-- Python `int(text)` for a string of decimal digits with an optional
sign: `none` models the `ValueError` branch. -/
def pyParseInt (s : String) : Option Int :=
  let cs := (pyStrip s).data
  match cs with
  | '-' :: rest =>
    if !rest.isEmpty && rest.all Char.isDigit then some (-(digitsVal rest : Int)) else none
  | '+' :: rest =>
    if !rest.isEmpty && rest.all Char.isDigit then some (digitsVal rest : Int) else none
  | rest =>
    if !rest.isEmpty && rest.all Char.isDigit then some (digitsVal rest : Int) else none

/-! ## Field parser: `parse_match_time` -/

/-- A calendar date standing for the `datetime.now()` the parser combines a
clock time with. -/
structure PyDate where
  year : Nat
  month : Nat
  day : Nat
deriving DecidableEq, Repr

/-- Two-digit zero padding, as in `datetime.isoformat`. -/
def pad2 (n : Nat) : String :=
  if n < 10 then "0" ++ toString n else toString n

/-- Four-digit zero padding for the year field of `datetime.isoformat`. -/
def pad4 (n : Nat) : String :=
  if n < 10 then "000" ++ toString n
  else if n < 100 then "00" ++ toString n
  else if n < 1000 then "0" ++ toString n
  else toString n

/-- Rendering of `datetime(y, mo, d, h, mi).isoformat()` with seconds and microseconds
zeroed, as produced by the source's `today.replace(...).isoformat()`. -/
def isoOfDateTime (d : PyDate) (h mi : Nat) : String :=
  pad4 d.year ++ "-" ++ pad2 d.month ++ "-" ++ pad2 d.day ++ "T" ++
    pad2 h ++ ":" ++ pad2 mi ++ ":00"

/-- The anchored regular expression `^(\d{1,2}):(\d{2})$` of
`parse_match_time`, returning the two captured numbers. -/
def timeShape (cs : List Char) : Option (Nat × Nat) :=
  match cs with
  | [a, ':', b, c] =>
    if a.isDigit && b.isDigit && c.isDigit then
      some (digitVal a, digitVal b * 10 + digitVal c)
    else none
  | [a, a2, ':', b, c] =>
    if a.isDigit && a2.isDigit && b.isDigit && c.isDigit then
      some (digitVal a * 10 + digitVal a2, digitVal b * 10 + digitVal c)
    else none
  | _ => none

/-- Embedding of `parse_match_time` from `app/extract_matches.py`: blank input gives
`none`; a string matching `^(\d{1,2}):(\d{2})$` whose numbers form a valid
clock time becomes today's date at that time (`datetime.replace` raises for
hour > 23 or minute > 59, and the `except` branch returns the stripped
string); anything else is returned stripped. -/
def parse_match_time (today : PyDate) (s : String) : Option String :=
  if s = "" || pyStrip s = "" then none
  else
    let t := pyStrip s
    match timeShape t.data with
    | some (h, mi) =>
      if h ≤ 23 && mi ≤ 59 then some (isoOfDateTime today h mi) else some t
    | none => some t

/-! ## Python `datetime.fromisoformat(...).date()` model -/

/-- Gregorian leap-year test. -/
def isLeap (y : Nat) : Bool :=
  (y % 4 = 0 && y % 100 ≠ 0) || y % 400 = 0

/-- Days in a month, as validated by `datetime`. -/
def daysInMonth (y mo : Nat) : Nat :=
  if mo = 2 then (if isLeap y then 29 else 28)
  else if mo = 4 || mo = 6 || mo = 9 || mo = 11 then 30
  else 31

/-- Valid `datetime` date triple. -/
def validYMD (y mo d : Nat) : Bool :=
  1 ≤ mo && mo ≤ 12 && 1 ≤ d && d ≤ daysInMonth y mo

/-- Fractional-second tail `.d{1,6}` of an ISO time. -/
def isoFracTail : List Char → Bool
  | [] => false
  | cs => cs.length ≤ 6 && cs.all Char.isDigit

/-- Optional `:SS[.ffffff]` tail of an ISO time. -/
def isoSecondTail : List Char → Bool
  | [] => true
  | ':' :: s1 :: s2 :: rest =>
    s1.isDigit && s2.isDigit && digitVal s1 * 10 + digitVal s2 ≤ 59 &&
      (match rest with
       | [] => true
       | '.' :: f => isoFracTail f
       | _ => false)
  | _ => false

/-- The `HH:MM[:SS[.ffffff]]` clock-time component of an ISO instant. -/
def isoTimeOk : List Char → Bool
  | h1 :: h2 :: ':' :: m1 :: m2 :: rest =>
    h1.isDigit && h2.isDigit && m1.isDigit && m2.isDigit &&
      digitVal h1 * 10 + digitVal h2 ≤ 23 && digitVal m1 * 10 + digitVal m2 ≤ 59 &&
      isoSecondTail rest
  | _ => false

/-- Tail after the ten date characters: either nothing, or a `T`/space
separator followed by a clock time. -/
def isoDateTail : List Char → Bool
  | [] => true
  | sep :: rest => (sep = 'T' || sep = ' ') && isoTimeOk rest

/-- Model of Python's `datetime.fromisoformat(s).date().isoformat()`,
restricted to the `YYYY-MM-DD[{T, }HH:MM[:SS[.ffffff]]]` shapes this system
produces: `some` of the ten date characters when the whole string parses,
`none` when `fromisoformat` raises `ValueError` (for example on raw display
strings such as `"FT"`). -/
def py_isodate (s : String) : Option String :=
  match s.data with
  | y1 :: y2 :: y3 :: y4 :: c1 :: m1 :: m2 :: c2 :: d1 :: d2 :: rest =>
    if y1.isDigit && y2.isDigit && y3.isDigit && y4.isDigit &&
        c1 = '-' && m1.isDigit && m2.isDigit && c2 = '-' &&
        d1.isDigit && d2.isDigit &&
        validYMD (digitsVal [y1, y2, y3, y4]) (digitVal m1 * 10 + digitVal m2)
          (digitVal d1 * 10 + digitVal d2) &&
        isoDateTail rest then
      some ⟨[y1, y2, y3, y4, c1, m1, m2, c2, d1, d2]⟩
    else none
  | _ => none

/-! ## Stage scanner: half-time marker and `(\d+)'` minute -/

/-- Fuel-driven scan for the leftmost match of the regular expression
`(\d+)'`: a maximal digit run immediately followed by an apostrophe. -/
def scanMinuteAux : Nat → List Char → Option Nat
  | 0, _ => none
  | _ + 1, [] => none
  | fuel + 1, c :: rest =>
    if c.isDigit then
      let run := (c :: rest).takeWhile Char.isDigit
      let after := (c :: rest).dropWhile Char.isDigit
      match after with
      | a :: _ =>
        if a = Char.ofNat 39 then some (digitsVal run) else scanMinuteAux fuel after
      | [] => none
    else scanMinuteAux fuel rest

/-- Embedding of the minute search returning the captured minute. -/
def stageMinute (s : String) : Option Nat :=
  scanMinuteAux (s.data.length + 1) s.data

/-! ## The parsed document tree

BeautifulSoup elements are modelled as a tag name, the multi-valued
`class` attribute, the remaining attributes, the element's direct text,
and its child elements.  `Node` and `NodeList` are mutually inductive so
that every traversal below is ordinary structural recursion. -/

mutual
inductive Node where
  | elem (tag : String) (classes : List String) (attrs : List (String × String))
      (text : String) (children : NodeList) : Node

inductive NodeList where
  | nil : NodeList
  | cons (n : Node) (ns : NodeList) : NodeList
end

/-- Tag name of an element. -/
def Node.tag : Node → String
  | .elem t _ _ _ _ => t

/-- Class list of an element (`element.get('class', [])`). -/
def Node.classes : Node → List String
  | .elem _ k _ _ _ => k

/-- Attribute list of an element. -/
def Node.attrs : Node → List (String × String)
  | .elem _ _ a _ _ => a

/-- Child elements. -/
def Node.children : Node → NodeList
  | .elem _ _ _ _ cs => cs

/-- Attribute lookup, `element.get(name)`. -/
def Node.getAttr (n : Node) (name : String) : Option String :=
  (n.attrs.find? (fun p => p.1 = name)).map Prod.snd

/-- Attribute lookup with a default, `element.get(name, dflt)`. -/
def Node.getAttrD (n : Node) (name dflt : String) : String :=
  (n.getAttr name).getD dflt

mutual
/-- Concatenated stripped text of an element, `get_text(strip=True)`. -/
def Node.getTextStrip : Node → String
  | .elem _ _ _ t cs => pyStrip t ++ NodeList.getTextStrip cs

/-- Concatenated stripped text of a list of elements. -/
def NodeList.getTextStrip : NodeList → String
  | .nil => ""
  | .cons n ns => n.getTextStrip ++ NodeList.getTextStrip ns
end

mutual
/-- First strict descendant satisfying `p`, in document order
(`element.find(...)`). -/
def Node.findDesc (p : Node → Bool) : Node → Option Node
  | .elem _ _ _ _ cs => NodeList.findFirst p cs

/-- First element of the forest (self included) satisfying `p`. -/
def NodeList.findFirst (p : Node → Bool) : NodeList → Option Node
  | .nil => none
  | .cons n ns =>
    if p n then some n
    else
      match Node.findDesc p n with
      | some r => some r
      | none => NodeList.findFirst p ns
end

mutual
/-- All strict descendants satisfying `p`, in document order
(`element.find_all(...)`). -/
def Node.findAllDesc (p : Node → Bool) : Node → List Node
  | .elem _ _ _ _ cs => NodeList.findAll p cs

/-- All elements of the forest (selves included) satisfying `p`. -/
def NodeList.findAll (p : Node → Bool) : NodeList → List Node
  | .nil => []
  | .cons n ns =>
    (if p n then [n] else []) ++ Node.findAllDesc p n ++ NodeList.findAll p ns
end

/-! ## Element predicates used by the source selectors -/

/-- Element has tag `t` and `c` among its classes (BeautifulSoup
`find(t, class_=c)` against the multi-valued attribute). -/
def nodeIs (t c : String) (n : Node) : Bool :=
  n.tag = t && n.classes.contains c

/-- Element whose class attribute is literally `sportName soccer`
(BeautifulSoup matches a space-separated search string against the full
class string). -/
def isSoccerSection (n : Node) : Bool :=
  n.tag = "div" && String.intercalate " " n.classes = "sportName soccer"

/-- Match-row selector:
`find_all('div', class_='event__match', attrs={'data-event-row': 'true'})`. -/
def isMatchRow (n : Node) : Bool :=
  n.tag = "div" && n.classes.contains "event__match" &&
    n.getAttr "data-event-row" = some "true"

/-- League-header selector `find('div', class_='headerLeague')`. -/
def isHeaderLeague (n : Node) : Bool :=
  nodeIs "div" "headerLeague" n

/-- Class-pattern selector `re.compile(r'wcl-name|simpleText')` applied to
a span: some class contains either alternative as a substring. -/
def isNameSpan (n : Node) : Bool :=
  n.tag = "span" &&
    n.classes.any (fun c => pyContains c "wcl-name" || pyContains c "simpleText")

/-- Selector `find('img', {'data-testid': 'wcl-participantLogo'})`. -/
def isParticipantLogo (n : Node) : Bool :=
  n.tag = "img" && n.getAttr "data-testid" = some "wcl-participantLogo"

/-- Class-pattern selector `re.compile(r'headerLeague__flag|icon--flag')`
applied to a span. -/
def isFlagSpan (n : Node) : Bool :=
  n.tag = "span" &&
    n.classes.any (fun c => pyContains c "headerLeague__flag" || pyContains c "icon--flag")

/-! ## Record Builder (`app/extract_matches.py`) -/

/-- League context resolved for a match row. -/
structure LeagueInfo where
  league_name : Option String
  league_country : Option String
  league_flag_class : Option String
deriving DecidableEq, Repr

/-- The all-null league context the locator starts from. -/
def emptyLeagueInfo : LeagueInfo := ⟨none, none, none⟩

/-- Python falsiness of an optional string (`None` or the empty string). -/
def pyFalsyOpt : Option String → Bool
  | none => true
  | some s => s = ""

/-- Embedding of `extract_league_info`: league name from the strong element
inside the title anchor, country from the category span, flag classes
filtered from the flag span. -/
def extract_league_info (league_element : Node) : LeagueInfo :=
  let name :=
    match Node.findDesc (nodeIs "a" "headerLeague__title") league_element with
    | some title =>
      match Node.findDesc (fun n => n.tag = "strong") title with
      | some strongElem => some strongElem.getTextStrip
      | none => none
    | none => none
  let country :=
    match Node.findDesc (nodeIs "span" "headerLeague__category-text") league_element with
    | some cat => some cat.getTextStrip
    | none => none
  let flag :=
    match Node.findDesc isFlagSpan league_element with
    | some flagElem =>
      let picked := flagElem.classes.filter (fun c => pyContains c "fl_" || pyContains c "flag")
      if picked.isEmpty then none else some (String.intercalate " " picked)
    | none => none
  ⟨name, country, flag⟩

/-- The status dictionary built by `extract_match_status`. -/
structure StatusInfo where
  is_live : Bool
  is_scheduled : Bool
  is_finished : Bool
  is_canceled : Bool
  is_postponed : Bool
  match_status : String
deriving DecidableEq, Repr

/-- Embedding of `extract_match_status`: substring checks against the
space-joined class string, then a live → scheduled → finished → unknown
precedence for the enumeration value. -/
def extract_match_status (match_element : Node) : StatusInfo :=
  let class_str := String.intercalate " " match_element.classes
  let live := pyContains class_str "event__match--live" || pyContains class_str "event__match--twoLine"
  let sched := pyContains class_str "event__match--scheduled"
  let fin := pyContains class_str "event__match--finished" || pyContains class_str "event__match--last"
  let status :=
    if live then "live"
    else if sched then "scheduled"
    else if fin then "finished"
    else "unknown"
  ⟨live, sched, fin, false, false, status⟩

/-- Cancellation / postponement override applied to the stage text in
`extract_match_data`: tokens in either language rewrite the class-derived
status, cancellation checked first. -/
def applyStageOverride (si : StatusInfo) (stage : Option String) : StatusInfo :=
  match stage with
  | none => si
  | some s =>
    if s = "" then si
    else if pyContains s "Cancelado" || pyContains s "Canceled" then
      { si with is_canceled := true, match_status := "canceled" }
    else if pyContains s "Adiado" || pyContains s "Postponed" then
      { si with is_postponed := true, match_status := "postponed" }
    else si

/-- Icon flags extracted by `extract_match_icons`. -/
structure IconInfo where
  has_tv_icon : Bool
  has_audio_icon : Bool
  has_info_icon : Bool
deriving DecidableEq, Repr

/-- Embedding of `extract_match_icons`: pure existence checks. -/
def extract_match_icons (match_element : Node) : IconInfo :=
  ⟨(Node.findDesc (nodeIs "a" "event__icon--tv") match_element).isSome,
   (Node.findDesc (nodeIs "a" "event__icon--audio") match_element).isSome,
   (Node.findDesc (nodeIs "svg" "event__icon--info") match_element).isSome⟩

/-- One normalized match record, the dictionary returned by
`extract_match_data`.  Fields read back by the store through `dict.get`
are optional; the two red-card counters are absent from the extractor's
dictionary and therefore default to `none`. -/
structure MatchRecord where
  match_id : Option String
  match_url : Option String
  league_name : Option String
  league_country : Option String
  league_flag_class : Option String
  league_logo_url : Option String
  match_time : Option String
  scheduled_datetime : Option String
  home_team_name : Option String
  home_team_logo_url : Option String
  away_team_name : Option String
  away_team_logo_url : Option String
  home_score : Option Int
  away_score : Option Int
  home_red_cards : Option Int
  away_red_cards : Option Int
  match_status : Option String
  match_stage : Option String
  is_live : Bool
  is_scheduled : Bool
  is_finished : Bool
  is_canceled : Bool
  is_postponed : Bool
  has_tv_icon : Bool
  has_audio_icon : Bool
  has_info_icon : Bool
  half_time : Option String
  current_minute : Option Int
deriving DecidableEq, Repr

/-- Stage text extraction: the stage block child when present, else the
stage container's own text. -/
def matchStageOf (match_element : Node) : Option String :=
  match Node.findDesc (nodeIs "div" "event__stage") match_element with
  | none => none
  | some stage_elem =>
    match Node.findDesc (nodeIs "div" "event__stage--block") stage_elem with
    | some block => some block.getTextStrip
    | none => some stage_elem.getTextStrip

/-- Score-cell text for one side. -/
def scoreCellText (match_element : Node) (cls : String) : Option String :=
  (Node.findDesc (nodeIs "span" cls) match_element).map Node.getTextStrip

/-- Score parsing guard of `extract_match_data`: parse only non-empty,
non-dash text, treating a failed parse as an absent score. -/
def scoreVal : Option String → Option Int
  | none => none
  | some t => if t ≠ "" && t ≠ "-" then pyParseInt t else none

/-- Participant name and logo for one side's container class. -/
def participantOf (match_element : Node) (sideCls : String) : Option String × Option String :=
  match Node.findDesc (nodeIs "div" sideCls) match_element with
  | none => (none, none)
  | some part =>
    let name := (Node.findDesc isNameSpan part).map Node.getTextStrip
    let logo := (Node.findDesc isParticipantLogo part).map (fun l => l.getAttrD "src" "")
    (name, logo)

/-- Detail-page URL: anchor href, rewritten to absolute when relative. -/
def matchUrlOf (match_element : Node) : Option String :=
  match Node.findDesc (nodeIs "a" "eventRowLink") match_element with
  | none => none
  | some link =>
    let u := link.getAttrD "href" ""
    if u ≠ "" && !pyStartsWith u "http" then some ("https://www.flashscore.pt" ++ u)
    else some u

/-- Half-time / current-minute derivation from the stage text: the
half-time marker is checked first, the trailing minute only otherwise. -/
def halfTimeAndMinute (stage : Option String) : Option String × Option Int :=
  match stage with
  | none => (none, none)
  | some s =>
    if s = "" then (none, none)
    else if pyContains (pyUpper s) "HT" || pyContains s "Intervalo" then (some "HT", none)
    else
      match stageMinute s with
      | some m => (none, some (m : Int))
      | none => (none, none)

/-- Lifting of `parse_match_time` to the optional time text
(`parse_match_time(None)` takes the falsy branch and yields `None`). -/
def parse_match_time_opt (today : PyDate) : Option String → Option String
  | none => none
  | some s => parse_match_time today s

/-- The record built for a row once its identifier is known. -/
def buildRecord (today : PyDate) (match_element : Node) (league_info : LeagueInfo) (mid : String) : MatchRecord :=
  let match_time := (Node.findDesc (nodeIs "div" "event__time") match_element).map Node.getTextStrip
  let stage := matchStageOf match_element
  let hname := (participantOf match_element "event__homeParticipant").1
  let hlogo := (participantOf match_element "event__homeParticipant").2
  let aname := (participantOf match_element "event__awayParticipant").1
  let alogo := (participantOf match_element "event__awayParticipant").2
  let si := applyStageOverride (extract_match_status match_element) stage
  let icons := extract_match_icons match_element
  let ht := (halfTimeAndMinute stage).1
  let mins := (halfTimeAndMinute stage).2
  { match_id := some mid
    match_url := matchUrlOf match_element
    league_name := league_info.league_name
    league_country := league_info.league_country
    league_flag_class := league_info.league_flag_class
    league_logo_url := none
    match_time := match_time
    scheduled_datetime := parse_match_time_opt today match_time
    home_team_name := hname
    home_team_logo_url := hlogo
    away_team_name := aname
    away_team_logo_url := alogo
    home_score := scoreVal (scoreCellText match_element "event__score--home")
    away_score := scoreVal (scoreCellText match_element "event__score--away")
    home_red_cards := none
    away_red_cards := none
    match_status := some si.match_status
    match_stage := stage
    is_live := si.is_live
    is_scheduled := si.is_scheduled
    is_finished := si.is_finished
    is_canceled := si.is_canceled
    is_postponed := si.is_postponed
    has_tv_icon := icons.has_tv_icon
    has_audio_icon := icons.has_audio_icon
    has_info_icon := icons.has_info_icon
    half_time := ht
    current_minute := mins }

/-- Embedding of `extract_match_data`: the identifier attribute is read
first, the `g_1_` marker stripped via `str.replace` when it starts the
attribute, and a row whose resulting identifier is empty is skipped
(`None`), not an error. -/
def extract_match_data (today : PyDate) (match_element : Node) (league_info : LeagueInfo) :
    Option MatchRecord :=
  let match_id_attr := match_element.getAttrD "id" ""
  let mid :=
    if pyStartsWith match_id_attr "g_1_" then pyRemoveAll match_id_attr "g_1_"
    else match_id_attr
  if mid = "" then none
  else some (buildRecord today match_element league_info mid)

/-! ## Tree Locator and Extraction Orchestrator -/

/-- A located element together with its previous siblings (nearest first)
and its ancestor chain (parent first), the data BeautifulSoup exposes
through `find_previous_sibling` and `.parent`. -/
structure RowCtx where
  node : Node
  prevSiblings : List Node
  ancestors : List Node

/-- Contexts of every element of a forest, in document order:
`anc` is the ancestor chain of the forest's elements (parent first) and
`before` the elements already passed at this level (nearest first). -/
def ctxForest (anc : List Node) : List Node → NodeList → List RowCtx
  | _, .nil => []
  | before, .cons (Node.elem t k a s cs) rest =>
    ⟨Node.elem t k a s cs, before, anc⟩ ::
      (ctxForest (Node.elem t k a s cs :: anc) [] cs ++
        ctxForest anc (Node.elem t k a s cs :: before) rest)

/-- Contexts of every element strictly below the document root. -/
def docCtxs (root : Node) : List RowCtx :=
  ctxForest [root] [] root.children

/-- Sibling phase of the primary league resolution: walk backward through
previous siblings until one contains a league-header block; the source
additionally re-checks siblings that are `headerLeague__wrapper` divs. -/
def siblingLeague : List Node → Option LeagueInfo
  | [] => none
  | sib :: rest =>
    match Node.findDesc isHeaderLeague sib with
    | some h => some (extract_league_info h)
    | none =>
      if sib.tag = "div" && sib.classes.contains "headerLeague__wrapper" then
        match Node.findDesc isHeaderLeague sib with
        | some h => some (extract_league_info h)
        | none => siblingLeague rest
      else siblingLeague rest

/-- Ancestor phase: climb the parent chain at most `fuel` levels, searching
each ancestor's descendants for a league-header block. -/
def ancestorLeague : Nat → List Node → Option LeagueInfo
  | 0, _ => none
  | _ + 1, [] => none
  | fuel + 1, p :: rest =>
    match Node.findDesc isHeaderLeague p with
    | some h => some (extract_league_info h)
    | none => ancestorLeague fuel rest

/-- League resolution for a row of the primary pass: siblings first, then
(when no league name was found) the ancestor walk bounded to 5 levels. -/
def primaryLeagueInfo (rc : RowCtx) : LeagueInfo :=
  let li1 :=
    match siblingLeague rc.prevSiblings with
    | some l => l
    | none => emptyLeagueInfo
  if pyFalsyOpt li1.league_name then
    match ancestorLeague 5 rc.ancestors with
    | some l => l
    | none => li1
  else li1

/-- Match-row contexts inside one soccer section. -/
def sectionRowCtxs (sc : RowCtx) : List RowCtx :=
  (ctxForest (sc.node :: sc.ancestors) [] sc.node.children).filter
    (fun rc => isMatchRow rc.node)

/-- Primary two-phase pass of `extract_all_matches_from_html`: soccer
sections, match rows inside each, sibling-then-ancestor league context. -/
def primaryRecords (today : PyDate) (root : Node) : List MatchRecord :=
  (((docCtxs root).filter (fun c => isSoccerSection c.node)).flatMap
    (fun sc =>
      (sectionRowCtxs sc).filterMap
        (fun rc => extract_match_data today rc.node (primaryLeagueInfo rc))))

/-- Fallback pass: flat document-wide row search, league context from the
ancestor walk alone, bounded to 10 levels. -/
def fallbackRecords (today : PyDate) (root : Node) : List MatchRecord :=
  ((docCtxs root).filter (fun rc => isMatchRow rc.node)).filterMap
    (fun rc =>
      extract_match_data today rc.node
        (match ancestorLeague 10 rc.ancestors with
         | some l => l
         | none => emptyLeagueInfo))

/-- Embedding of `extract_all_matches_from_html` on an already parsed
document: the fallback pass runs exactly when the primary pass produced no
records. -/
def extract_all_matches_from_html (today : PyDate) (root : Node) : List MatchRecord :=
  let primary := primaryRecords today root
  if primary.isEmpty then fallbackRecords today root else primary

/-! ## Relational store (`db/database.py`) -/

/-- One row of the `leagues` table. -/
structure LeagueRow where
  id : Nat
  name : String
  country : Option String
  flag_class : Option String
  logo_url : Option String
deriving DecidableEq, Repr

/-- One row of the `teams` table. -/
structure TeamRow where
  id : Nat
  name : String
  logo_url : Option String
deriving DecidableEq, Repr

/-- One row of the `matches` table. -/
structure MatchRow where
  id : Nat
  match_id : String
  match_url : Option String
  league_id : Option Nat
  home_team_id : Option Nat
  away_team_id : Option Nat
  match_time : Option String
  match_date : Option String
  scheduled_datetime : Option String
  home_score : Option Int
  away_score : Option Int
  home_red_cards : Int
  away_red_cards : Int
  match_status : Option String
  match_stage : Option String
  is_live : Bool
  is_scheduled : Bool
  is_finished : Bool
  is_canceled : Bool
  is_postponed : Bool
  has_tv_icon : Bool
  has_audio_icon : Bool
  has_info_icon : Bool
  half_time : Option String
  current_minute : Option Int
  scraped_at : Nat
  updated_at : Nat
deriving DecidableEq, Repr

/-- The SQLite database state: three tables plus their autoincrement
counters. -/
structure DB where
  leagues : List LeagueRow
  teams : List TeamRow
  matchRows : List MatchRow
  nextLeagueId : Nat
  nextTeamId : Nat
  nextMatchRowId : Nat
deriving DecidableEq, Repr

/-- The empty freshly initialized database. -/
def emptyDB : DB := ⟨[], [], [], 1, 1, 1⟩

/-- SQL predicate `name = ? AND country = ?` of the league lookup: a SQL
comparison against `NULL` is never true, so a `NULL` country parameter (or
a stored `NULL` country) matches no row. -/
def leagueKeyMatch (n : String) (c : Option String) (l : LeagueRow) : Bool :=
  l.name = n &&
    (match c, l.country with
     | some cv, some lc => lc = cv
     | _, _ => false)

/-- Python truthiness of the optional logo parameter. -/
def logoTruthy : Option String → Bool
  | none => false
  | some s => s ≠ ""

/-- In-place logo refresh `UPDATE leagues SET logo_url = ? WHERE id = ?`. -/
def updLeagueLogo (lo : Option String) (i : Nat) (x : LeagueRow) : LeagueRow :=
  if x.id = i then { x with logo_url := lo } else x

/-- In-place logo refresh `UPDATE teams SET logo_url = ? WHERE id = ?`. -/
def updTeamLogo (lo : Option String) (i : Nat) (x : TeamRow) : TeamRow :=
  if x.id = i then { x with logo_url := lo } else x

/-- Embedding of `get_or_create_league`: falsy name resolves to no entity;
otherwise look up by `(name, country)`, updating the logo in place when a
non-empty different one is supplied, or insert a fresh row. -/
def get_or_create_league (name country flag logo : Option String) (db : DB) :
    Option Nat × DB :=
  match name with
  | none => (none, db)
  | some n =>
    if n = "" then (none, db)
    else
      match db.leagues.find? (leagueKeyMatch n country) with
      | some l =>
        let db' :=
          if logoTruthy logo && l.logo_url ≠ logo then
            { db with leagues := db.leagues.map (updLeagueLogo logo l.id) }
          else db
        (some l.id, db')
      | none =>
        (some db.nextLeagueId,
         { db with
             leagues := db.leagues ++ [⟨db.nextLeagueId, n, country, flag, logo⟩],
             nextLeagueId := db.nextLeagueId + 1 })

/-- Embedding of `get_or_create_team`: lookup by name with the same
update-on-change logo rule. -/
def get_or_create_team (name logo : Option String) (db : DB) : Option Nat × DB :=
  match name with
  | none => (none, db)
  | some n =>
    if n = "" then (none, db)
    else
      match db.teams.find? (fun t => t.name = n) with
      | some t =>
        let db' :=
          if logoTruthy logo && t.logo_url ≠ logo then
            { db with teams := db.teams.map (updTeamLogo logo t.id) }
          else db
        (some t.id, db')
      | none =>
        (some db.nextTeamId,
         { db with
             teams := db.teams ++ [⟨db.nextTeamId, n, logo⟩],
             nextTeamId := db.nextTeamId + 1 })

/-- The `match_date` derivation of `insert_or_update_match`: date component
of a truthy, parseable `scheduled_datetime`, else `NULL`. -/
def deriveMatchDate : Option String → Option String
  | none => none
  | some s => if s = "" then none else py_isodate s

/-- Mutable columns written by the `UPDATE` branch (everything except
`id`, `match_id` and `scraped_at`, plus the refreshed `updated_at`). -/
def updateRowVals (r : MatchRecord) (lid hid aid : Option Nat) (now : Nat)
    (m : MatchRow) : MatchRow :=
  { m with
      match_url := r.match_url
      league_id := lid
      home_team_id := hid
      away_team_id := aid
      match_time := r.match_time
      match_date := deriveMatchDate r.scheduled_datetime
      scheduled_datetime := r.scheduled_datetime
      home_score := r.home_score
      away_score := r.away_score
      home_red_cards := r.home_red_cards.getD 0
      away_red_cards := r.away_red_cards.getD 0
      match_status := r.match_status
      match_stage := r.match_stage
      is_live := r.is_live
      is_scheduled := r.is_scheduled
      is_finished := r.is_finished
      is_canceled := r.is_canceled
      is_postponed := r.is_postponed
      has_tv_icon := r.has_tv_icon
      has_audio_icon := r.has_audio_icon
      has_info_icon := r.has_info_icon
      half_time := r.half_time
      current_minute := r.current_minute
      updated_at := now }

/-- Row written by the `INSERT` branch (`scraped_at` set once, here). -/
def insertRowVals (r : MatchRecord) (mid : String) (lid hid aid : Option Nat)
    (now rowId : Nat) : MatchRow :=
  { id := rowId
    match_id := mid
    match_url := r.match_url
    league_id := lid
    home_team_id := hid
    away_team_id := aid
    match_time := r.match_time
    match_date := deriveMatchDate r.scheduled_datetime
    scheduled_datetime := r.scheduled_datetime
    home_score := r.home_score
    away_score := r.away_score
    home_red_cards := r.home_red_cards.getD 0
    away_red_cards := r.away_red_cards.getD 0
    match_status := r.match_status
    match_stage := r.match_stage
    is_live := r.is_live
    is_scheduled := r.is_scheduled
    is_finished := r.is_finished
    is_canceled := r.is_canceled
    is_postponed := r.is_postponed
    has_tv_icon := r.has_tv_icon
    has_audio_icon := r.has_audio_icon
    has_info_icon := r.has_info_icon
    half_time := r.half_time
    current_minute := r.current_minute
    scraped_at := now
    updated_at := now }

/-- Embedding of `insert_or_update_match`: resolve the three entities,
derive `match_date`, then update every row carrying the `match_id` key or
insert a fresh row.  A `None` identifier violates the `NOT NULL`
constraint on insert; the `except` branch rolls the whole record back and
reports `False` with the database unchanged. -/
def insert_or_update_match (now : Nat) (r : MatchRecord) (db : DB) : Bool × DB :=
  let lres := get_or_create_league r.league_name r.league_country
    r.league_flag_class r.league_logo_url db
  let hres := get_or_create_team r.home_team_name r.home_team_logo_url lres.2
  let ares := get_or_create_team r.away_team_name r.away_team_logo_url hres.2
  match r.match_id with
  | none => (false, db)
  | some mid =>
    match ares.2.matchRows.find? (fun m => m.match_id = mid) with
    | some _ =>
      (true,
       { ares.2 with
           matchRows := ares.2.matchRows.map
             (fun m =>
               if m.match_id = mid then updateRowVals r lres.1 hres.1 ares.1 now m else m) })
    | none =>
      (true,
       { ares.2 with
           matchRows := ares.2.matchRows ++
             [insertRowVals r mid lres.1 hres.1 ares.1 now ares.2.nextMatchRowId]
           nextMatchRowId := ares.2.nextMatchRowId + 1 })

/-! ## Batch save (`save_matches_to_database`) -/

/-- Batch loop shared shape: per-record upserts, a success counter, and the
identifiers of failed records in encounter order. -/
def save_batch_aux (u : MatchRecord → DB → Bool × DB) :
    List MatchRecord → DB → Nat × List (Option String) × DB
  | [], db => (0, [], db)
  | r :: rs, db =>
    let step := u r db
    let rest := save_batch_aux u rs step.2
    if step.1 then (rest.1 + 1, rest.2.1, rest.2.2)
    else (rest.1, r.match_id :: rest.2.1, rest.2.2)

/-- Embedding of `save_matches_to_database`: every record is attempted,
failures are collected, the batch always runs to the end. -/
def save_matches_to_database (now : Nat) (records : List MatchRecord) (db : DB) :
    Nat × List (Option String) × DB :=
  save_batch_aux (insert_or_update_match now) records db

/-- The database state after a batch save. -/
def run_batch (now : Nat) (records : List MatchRecord) (db : DB) : DB :=
  (save_matches_to_database now records db).2.2

/-- Failure report printed by the batch saver: the first five failed
identifiers, and the count of the remainder when more than five failed. -/
structure SaveReport where
  displayed : List (Option String)
  overflowCount : Option Nat
deriving DecidableEq, Repr

/-- Embedding of the report: `failed_matches[:5]` plus
`len(failed_matches) - 5` when the list is longer than five. -/
def failureReport (failed : List (Option String)) : SaveReport :=
  ⟨failed.take 5, if failed.length > 5 then some (failed.length - 5) else none⟩

/-! ## Support lemmas for the entity resolver -/

theorem gcl_eq_none (c f lo : Option String) (db : DB) :
    get_or_create_league none c f lo db = (none, db) := rfl

theorem gcl_eq_empty (c f lo : Option String) (db : DB) :
    get_or_create_league (some "") c f lo db = (none, db) := rfl

theorem gcl_eq_found {n : String} {c : Option String} {db : DB} {l : LeagueRow}
    (hn : n ≠ "") (h : db.leagues.find? (leagueKeyMatch n c) = some l)
    (f lo : Option String) :
    get_or_create_league (some n) c f lo db
      = (some l.id,
         if logoTruthy lo && l.logo_url ≠ lo then
           { db with leagues := db.leagues.map (updLeagueLogo lo l.id) }
         else db) := by
  simp only [get_or_create_league, if_neg hn, h]

theorem gcl_eq_notfound {n : String} {c : Option String} {db : DB}
    (hn : n ≠ "") (h : db.leagues.find? (leagueKeyMatch n c) = none)
    (f lo : Option String) :
    get_or_create_league (some n) c f lo db
      = (some db.nextLeagueId,
         { db with
             leagues := db.leagues ++ [⟨db.nextLeagueId, n, c, f, lo⟩],
             nextLeagueId := db.nextLeagueId + 1 }) := by
  simp only [get_or_create_league, if_neg hn, h]

theorem gct_eq_none (lo : Option String) (db : DB) :
    get_or_create_team none lo db = (none, db) := rfl

theorem gct_eq_empty (lo : Option String) (db : DB) :
    get_or_create_team (some "") lo db = (none, db) := rfl

theorem gct_eq_found {n : String} {db : DB} {t : TeamRow}
    (hn : n ≠ "") (h : db.teams.find? (fun t => t.name = n) = some t)
    (lo : Option String) :
    get_or_create_team (some n) lo db
      = (some t.id,
         if logoTruthy lo && t.logo_url ≠ lo then
           { db with teams := db.teams.map (updTeamLogo lo t.id) }
         else db) := by
  simp only [get_or_create_team, if_neg hn, h]

theorem gct_eq_notfound {n : String} {db : DB}
    (hn : n ≠ "") (h : db.teams.find? (fun t => t.name = n) = none)
    (lo : Option String) :
    get_or_create_team (some n) lo db
      = (some db.nextTeamId,
         { db with
             teams := db.teams ++ [⟨db.nextTeamId, n, lo⟩],
             nextTeamId := db.nextTeamId + 1 }) := by
  simp only [get_or_create_team, if_neg hn, h]

theorem leagueKeyMatch_updLogo (n : String) (c : Option String) (lo : Option String)
    (i : Nat) (x : LeagueRow) :
    leagueKeyMatch n c (updLeagueLogo lo i x) = leagueKeyMatch n c x := by
  unfold updLeagueLogo
  by_cases hx : x.id = i <;> simp [hx, leagueKeyMatch]

theorem teamName_updLogo (n : String) (lo : Option String) (i : Nat) (x : TeamRow) :
    ((updTeamLogo lo i x).name = n) = (x.name = n) := by
  unfold updTeamLogo
  by_cases hx : x.id = i <;> simp [hx]

theorem find?_map_updLeagueLogo (lo : Option String) (i : Nat) (n : String)
    (c : Option String) (ls : List LeagueRow) :
    (ls.map (updLeagueLogo lo i)).find? (leagueKeyMatch n c)
      = (ls.find? (leagueKeyMatch n c)).map (updLeagueLogo lo i) := by
  rw [List.find?_map]
  have hp : leagueKeyMatch n c ∘ updLeagueLogo lo i = leagueKeyMatch n c := by
    funext x
    exact leagueKeyMatch_updLogo n c lo i x
  rw [hp]

theorem find?_map_updTeamLogo (lo : Option String) (i : Nat) (n : String)
    (ts : List TeamRow) :
    (ts.map (updTeamLogo lo i)).find? (fun t => t.name = n)
      = (ts.find? (fun t => t.name = n)).map (updTeamLogo lo i) := by
  rw [List.find?_map]
  have hp : ((fun t : TeamRow => decide (t.name = n)) ∘ updTeamLogo lo i)
      = fun t : TeamRow => decide (t.name = n) := by
    funext x
    simp only [Function.comp_apply]
    unfold updTeamLogo
    by_cases hx : x.id = i <;> simp [hx]
  rw [hp]

theorem updLeagueLogo_id (lo : Option String) (i : Nat) (x : LeagueRow) :
    (updLeagueLogo lo i x).id = x.id := by
  unfold updLeagueLogo
  by_cases hx : x.id = i <;> simp [hx]

theorem updTeamLogo_id (lo : Option String) (i : Nat) (x : TeamRow) :
    (updTeamLogo lo i x).id = x.id := by
  unfold updTeamLogo
  by_cases hx : x.id = i <;> simp [hx]

/-- Resolving a league twice with the same key returns the same id and
creates no second row, provided the country is not SQL `NULL`. -/
theorem league_get_or_create_twice (name country flag logo : Option String) (db : DB)
    (hc : country ≠ none) :
    (get_or_create_league name country flag logo
        (get_or_create_league name country flag logo db).2).1
      = (get_or_create_league name country flag logo db).1
    ∧ (get_or_create_league name country flag logo
        (get_or_create_league name country flag logo db).2).2.leagues.length
      = (get_or_create_league name country flag logo db).2.leagues.length := by
  match name with
  | none =>
    simp [gcl_eq_none]
  | some n =>
    by_cases hn : n = ""
    · subst hn
      simp [gcl_eq_empty]
    · rcases h : db.leagues.find? (leagueKeyMatch n country) with _ | l
      · -- first call inserts
        obtain ⟨cv, rfl⟩ := Option.ne_none_iff_exists'.mp hc
        rw [gcl_eq_notfound hn h flag logo]
        have h2 : (db.leagues ++
              [(⟨db.nextLeagueId, n, some cv, flag, logo⟩ : LeagueRow)]).find?
              (leagueKeyMatch n (some cv))
            = some ⟨db.nextLeagueId, n, some cv, flag, logo⟩ := by
          rw [List.find?_append, h]
          simp [List.find?, leagueKeyMatch]
        rw [gcl_eq_found hn h2 flag logo]
        have hcond : (logoTruthy logo &&
            decide ((⟨db.nextLeagueId, n, some cv, flag, logo⟩ : LeagueRow).logo_url ≠ logo))
            = false := by
          simp
        rw [hcond]
        simp
      · -- first call finds
        rw [gcl_eq_found hn h flag logo]
        by_cases hupd : (logoTruthy logo && decide (l.logo_url ≠ logo)) = true
        · rw [if_pos hupd]
          have h2 : (({ db with leagues := db.leagues.map (updLeagueLogo logo l.id) } :
                DB).leagues).find? (leagueKeyMatch n country)
              = some (updLeagueLogo logo l.id l) := by
            show (db.leagues.map (updLeagueLogo logo l.id)).find? (leagueKeyMatch n country)
              = some (updLeagueLogo logo l.id l)
            rw [find?_map_updLeagueLogo, h]
            rfl
          rw [gcl_eq_found hn h2 flag logo]
          have hlogo : (updLeagueLogo logo l.id l).logo_url = logo := by
            simp [updLeagueLogo]
          have hcond : (logoTruthy logo && decide ((updLeagueLogo logo l.id l).logo_url ≠ logo))
              = false := by
            rw [hlogo]
            simp
          rw [hcond]
          constructor
          · simp [updLeagueLogo_id]
          · simp
        · rw [if_neg hupd, gcl_eq_found hn h flag logo, if_neg hupd]
          exact ⟨rfl, rfl⟩

/-- Resolving a team twice with the same name returns the same id and
creates no second row, for every name. -/
theorem team_get_or_create_twice (name logo : Option String) (db : DB) :
    (get_or_create_team name logo (get_or_create_team name logo db).2).1
      = (get_or_create_team name logo db).1
    ∧ (get_or_create_team name logo (get_or_create_team name logo db).2).2.teams.length
      = (get_or_create_team name logo db).2.teams.length := by
  match name with
  | none =>
    simp [gct_eq_none]
  | some n =>
    by_cases hn : n = ""
    · subst hn
      simp [gct_eq_empty]
    · rcases h : db.teams.find? (fun t => t.name = n) with _ | t
      · rw [gct_eq_notfound hn h logo]
        have h2 : (db.teams ++ [(⟨db.nextTeamId, n, logo⟩ : TeamRow)]).find?
              (fun t => t.name = n)
            = some ⟨db.nextTeamId, n, logo⟩ := by
          rw [List.find?_append, h]
          simp [List.find?]
        rw [gct_eq_found hn h2 logo]
        have hcond : (logoTruthy logo &&
            decide ((⟨db.nextTeamId, n, logo⟩ : TeamRow).logo_url ≠ logo)) = false := by
          simp
        rw [hcond]
        simp
      · rw [gct_eq_found hn h logo]
        by_cases hupd : (logoTruthy logo && decide (t.logo_url ≠ logo)) = true
        · rw [if_pos hupd]
          have h2 : (({ db with teams := db.teams.map (updTeamLogo logo t.id) } :
                DB).teams).find? (fun x => x.name = n)
              = some (updTeamLogo logo t.id t) := by
            show (db.teams.map (updTeamLogo logo t.id)).find? (fun x => x.name = n)
              = some (updTeamLogo logo t.id t)
            rw [find?_map_updTeamLogo, h]
            rfl
          rw [gct_eq_found hn h2 logo]
          have hlogo : (updTeamLogo logo t.id t).logo_url = logo := by
            simp [updTeamLogo]
          have hcond : (logoTruthy logo && decide ((updTeamLogo logo t.id t).logo_url ≠ logo))
              = false := by
            rw [hlogo]
            simp
          rw [hcond]
          constructor
          · simp [updTeamLogo_id]
          · simp
        · rw [if_neg hupd, gct_eq_found hn h logo, if_neg hupd]
          exact ⟨rfl, rfl⟩

/-! ## Claim C2 -/

/-- C2 (corrected).  Calling the entity resolver twice with the same
natural key returns the same identifier both times and creates no
duplicate row — for a league whenever the country value is not SQL `NULL`
(the empty string included), and for a team for every name.  With a `NULL`
country the claim fails (see the counterexample): the SQL lookup
`country = NULL` matches nothing, so each call inserts a fresh row. -/
theorem C2_entity_resolver_dedup (name country flag logo tname tlogo : Option String)
    (db tdb : DB) (hc : country ≠ none) :
    ((get_or_create_league name country flag logo
        (get_or_create_league name country flag logo db).2).1
      = (get_or_create_league name country flag logo db).1
     ∧ (get_or_create_league name country flag logo
        (get_or_create_league name country flag logo db).2).2.leagues.length
      = (get_or_create_league name country flag logo db).2.leagues.length)
    ∧ ((get_or_create_team tname tlogo (get_or_create_team tname tlogo tdb).2).1
        = (get_or_create_team tname tlogo tdb).1
       ∧ (get_or_create_team tname tlogo (get_or_create_team tname tlogo tdb).2).2.teams.length
        = (get_or_create_team tname tlogo tdb).2.teams.length) :=
  ⟨league_get_or_create_twice name country flag logo db hc,
   team_get_or_create_twice tname tlogo tdb⟩

/-- Witness for C2 at a concrete key: league "Premier League" with country
"England", team "Arsenal", on the empty database. -/
theorem C2_entity_resolver_dedup_witness :
    (some "England" : Option String) ≠ none
    ∧ ((get_or_create_league (some "Premier League") (some "England") none none
          (get_or_create_league (some "Premier League") (some "England") none none
            emptyDB).2).1
        = (get_or_create_league (some "Premier League") (some "England") none none emptyDB).1
       ∧ (get_or_create_league (some "Premier League") (some "England") none none
          (get_or_create_league (some "Premier League") (some "England") none none
            emptyDB).2).2.leagues.length
        = (get_or_create_league (some "Premier League") (some "England") none none
            emptyDB).2.leagues.length)
    ∧ ((get_or_create_team (some "Arsenal") none
          (get_or_create_team (some "Arsenal") none emptyDB).2).1
        = (get_or_create_team (some "Arsenal") none emptyDB).1
       ∧ (get_or_create_team (some "Arsenal") none
          (get_or_create_team (some "Arsenal") none emptyDB).2).2.teams.length
        = (get_or_create_team (some "Arsenal") none emptyDB).2.teams.length) :=
  ⟨by decide,
   (C2_entity_resolver_dedup (some "Premier League") (some "England") none none
      (some "Arsenal") none emptyDB emptyDB (by decide)).1,
   (C2_entity_resolver_dedup (some "Premier League") (some "England") none none
      (some "Arsenal") none emptyDB emptyDB (by decide)).2⟩

/-- Counterexample to C2 as stated: with league name "X" and a null
country, the first resolution returns id 1, the second returns id 2, and
the table holds two rows afterwards — the same natural key resolved to two
different entity identifiers. -/
theorem C2_null_country_duplicates_cex :
    (get_or_create_league (some "X") none none none emptyDB).1 = some 1
    ∧ (get_or_create_league (some "X") none none none
        (get_or_create_league (some "X") none none none emptyDB).2).1 = some 2
    ∧ (some 1 : Option Nat) ≠ some 2
    ∧ ((get_or_create_league (some "X") none none none
        (get_or_create_league (some "X") none none none emptyDB).2).2).leagues.length = 2 := by
  refine ⟨rfl, rfl, ?_, rfl⟩
  decide

/-! ## Claim C5 -/

/-- C5 (corrected).  For every input string: blank (empty or
whitespace-only) input yields `none`; input whose stripped form matches
the `HH:MM` shape with a valid clock time (hour at most 23, minute at most
59) yields today's date combined with that time as an ISO instant; input
whose stripped form does not match the shape yields the stripped input
back with no instant derived; and shape-matching input with an
out-of-range hour or minute also yields the stripped input back, because
`datetime.replace` raises and the handler returns the string. -/
theorem C5_parse_match_time (today : PyDate) (s : String) :
    (pyStrip s = "" → parse_match_time today s = none)
    ∧ (∀ h mi, timeShape (pyStrip s).data = some (h, mi) → h ≤ 23 → mi ≤ 59 →
        parse_match_time today s = some (isoOfDateTime today h mi))
    ∧ (timeShape (pyStrip s).data = none → pyStrip s ≠ "" →
        parse_match_time today s = some (pyStrip s))
    ∧ (∀ h mi, timeShape (pyStrip s).data = some (h, mi) → ¬(h ≤ 23 ∧ mi ≤ 59) →
        parse_match_time today s = some (pyStrip s)) := by
  refine ⟨?_, ?_, ?_, ?_⟩
  · intro hb
    simp [parse_match_time, hb]
  · intro h mi hshape hh hmi
    have hps : pyStrip s ≠ "" := by
      intro he
      rw [he] at hshape
      simp [timeShape] at hshape
    have hs : s ≠ "" := by
      intro he
      subst he
      exact hps rfl
    simp [parse_match_time, hs, hps, hshape, hh, hmi]
  · intro hshape hps
    have hs : s ≠ "" := by
      intro he
      subst he
      exact hps rfl
    simp [parse_match_time, hs, hps, hshape]
  · intro h mi hshape hrange
    have hps : pyStrip s ≠ "" := by
      intro he
      rw [he] at hshape
      simp [timeShape] at hshape
    have hs : s ≠ "" := by
      intro he
      subst he
      exact hps rfl
    have hcond : (decide (h ≤ 23) && decide (mi ≤ 59)) = false := by
      rcases Nat.lt_or_ge 23 h with hlt | hle
      · simp [Nat.not_le.mpr hlt]
      · have : ¬ mi ≤ 59 := fun hm => hrange ⟨hle, hm⟩
        simp [this]
    simp [parse_match_time, hs, hps, hshape, hcond]

/-- Witness for C5 at concrete inputs: a blank string, a valid clock time,
a non-time display string and an out-of-range clock shape. -/
theorem C5_parse_match_time_witness :
    parse_match_time ⟨2026, 10, 12⟩ " " = none
    ∧ parse_match_time ⟨2026, 10, 12⟩ "9:05" = some (isoOfDateTime ⟨2026, 10, 12⟩ 9 5)
    ∧ parse_match_time ⟨2026, 10, 12⟩ "FT" = some (pyStrip "FT")
    ∧ parse_match_time ⟨2026, 10, 12⟩ "25:99" = some (pyStrip "25:99") :=
  ⟨(C5_parse_match_time ⟨2026, 10, 12⟩ " ").1 (by decide),
   (C5_parse_match_time ⟨2026, 10, 12⟩ "9:05").2.1 9 5 (by decide) (by decide) (by decide),
   (C5_parse_match_time ⟨2026, 10, 12⟩ "FT").2.2.1 (by decide) (by decide),
   (C5_parse_match_time ⟨2026, 10, 12⟩ "25:99").2.2.2 25 99 (by decide) (by decide)⟩

/-- Counterexample to C5 as stated: "25:99" matches the `HH:MM` shape yet
no instant is derived (the raw string comes back), and the non-time input
" FT " is returned stripped, not unmodified. -/
theorem C5_shape_not_instant_cex :
    (timeShape ("25:99").data).isSome = true
    ∧ parse_match_time ⟨2026, 10, 12⟩ "25:99" = some "25:99"
    ∧ parse_match_time ⟨2026, 10, 12⟩ "25:99" ≠ some (isoOfDateTime ⟨2026, 10, 12⟩ 25 99)
    ∧ parse_match_time ⟨2026, 10, 12⟩ " FT " = some "FT"
    ∧ (" FT " : String) ≠ "FT" := by
  refine ⟨rfl, rfl, ?_, rfl, ?_⟩ <;> decide

/-! ## Support lemmas for the record builder -/

/-- The identifier the builder derives from the row's id attribute. -/
def derivedMatchId (el : Node) : String :=
  if pyStartsWith (el.getAttrD "id" "") "g_1_" then pyRemoveAll (el.getAttrD "id" "") "g_1_"
  else el.getAttrD "id" ""

theorem extract_match_data_eq_if (today : PyDate) (el : Node) (li : LeagueInfo) :
    extract_match_data today el li
      = (if derivedMatchId el = "" then none
         else some (buildRecord today el li (derivedMatchId el))) := rfl

theorem extract_match_data_eq_some {today : PyDate} {el : Node} {li : LeagueInfo}
    {r : MatchRecord} (h : extract_match_data today el li = some r) :
    derivedMatchId el ≠ "" ∧ r = buildRecord today el li (derivedMatchId el) := by
  rw [extract_match_data_eq_if] at h
  by_cases hm : derivedMatchId el = ""
  · rw [if_pos hm] at h
    exact absurd h (by simp)
  · rw [if_neg hm] at h
    exact ⟨hm, (Option.some.inj h).symm⟩

theorem extract_match_data_eq_none {today : PyDate} {el : Node} {li : LeagueInfo} :
    extract_match_data today el li = none ↔ derivedMatchId el = "" := by
  rw [extract_match_data_eq_if]
  by_cases hm : derivedMatchId el = "" <;> simp [hm]

theorem buildRecord_home_score (today : PyDate) (el : Node) (li : LeagueInfo) (mid : String) :
    (buildRecord today el li mid).home_score
      = scoreVal (scoreCellText el "event__score--home") := rfl

theorem buildRecord_away_score (today : PyDate) (el : Node) (li : LeagueInfo) (mid : String) :
    (buildRecord today el li mid).away_score
      = scoreVal (scoreCellText el "event__score--away") := rfl

theorem buildRecord_status (today : PyDate) (el : Node) (li : LeagueInfo) (mid : String) :
    (buildRecord today el li mid).match_status
      = some (applyStageOverride (extract_match_status el) (matchStageOf el)).match_status := rfl

theorem buildRecord_stage (today : PyDate) (el : Node) (li : LeagueInfo) (mid : String) :
    (buildRecord today el li mid).match_stage = matchStageOf el := rfl

theorem buildRecord_match_id (today : PyDate) (el : Node) (li : LeagueInfo) (mid : String) :
    (buildRecord today el li mid).match_id = some mid := rfl

theorem buildRecord_is_live (today : PyDate) (el : Node) (li : LeagueInfo) (mid : String) :
    (buildRecord today el li mid).is_live
      = (applyStageOverride (extract_match_status el) (matchStageOf el)).is_live := rfl

theorem buildRecord_is_scheduled (today : PyDate) (el : Node) (li : LeagueInfo) (mid : String) :
    (buildRecord today el li mid).is_scheduled
      = (applyStageOverride (extract_match_status el) (matchStageOf el)).is_scheduled := rfl

theorem buildRecord_is_finished (today : PyDate) (el : Node) (li : LeagueInfo) (mid : String) :
    (buildRecord today el li mid).is_finished
      = (applyStageOverride (extract_match_status el) (matchStageOf el)).is_finished := rfl

theorem buildRecord_is_canceled (today : PyDate) (el : Node) (li : LeagueInfo) (mid : String) :
    (buildRecord today el li mid).is_canceled
      = (applyStageOverride (extract_match_status el) (matchStageOf el)).is_canceled := rfl

theorem buildRecord_is_postponed (today : PyDate) (el : Node) (li : LeagueInfo) (mid : String) :
    (buildRecord today el li mid).is_postponed
      = (applyStageOverride (extract_match_status el) (matchStageOf el)).is_postponed := rfl

/-! ## Claim C7 -/

/-- C7 (confirmed).  A score cell is parsed to an integer only when its
text is non-empty and not the placeholder dash: a dash cell yields a null
score, a non-numeric text after that check yields a null score rather than
an error, and otherwise the Python `int` parse is used. -/
theorem C7_score_nullability (today : PyDate) (el : Node) (li : LeagueInfo)
    (r : MatchRecord) (h : extract_match_data today el li = some r) :
    (scoreCellText el "event__score--home" = some "-" → r.home_score = none)
    ∧ (scoreCellText el "event__score--away" = some "-" → r.away_score = none)
    ∧ (∀ t, scoreCellText el "event__score--home" = some t → t ≠ "" → t ≠ "-" →
        r.home_score = pyParseInt t)
    ∧ (∀ t, scoreCellText el "event__score--away" = some t → t ≠ "" → t ≠ "-" →
        r.away_score = pyParseInt t)
    ∧ (∀ t, scoreCellText el "event__score--home" = some t → pyParseInt t = none →
        r.home_score = none)
    ∧ (∀ t, scoreCellText el "event__score--away" = some t → pyParseInt t = none →
        r.away_score = none) := by
  obtain ⟨-, rfl⟩ := extract_match_data_eq_some h
  rw [buildRecord_home_score, buildRecord_away_score]
  refine ⟨?_, ?_, ?_, ?_, ?_, ?_⟩
  · intro hc
    rw [hc]
    rfl
  · intro hc
    rw [hc]
    rfl
  · intro t hc h1 h2
    rw [hc]
    simp [scoreVal, h1, h2]
  · intro t hc h1 h2
    rw [hc]
    simp [scoreVal, h1, h2]
  · intro t hc hp
    rw [hc]
    by_cases hcond : (t ≠ "" ∧ t ≠ "-")
    · simp [scoreVal, hcond.1, hcond.2, hp]
    · rcases not_and_or.mp hcond with h1 | h1 <;>
        simp [scoreVal, not_not.mp h1]
  · intro t hc hp
    rw [hc]
    by_cases hcond : (t ≠ "" ∧ t ≠ "-")
    · simp [scoreVal, hcond.1, hcond.2, hp]
    · rcases not_and_or.mp hcond with h1 | h1 <;>
        simp [scoreVal, not_not.mp h1]

/-- Concrete row whose home score cell holds only a dash and whose away
score cell holds the non-numeric text "abc". -/
def c7row : Node :=
  Node.elem "div" [] [("id", "x1")] ""
    (NodeList.cons (Node.elem "span" ["event__score--home"] [] "-" NodeList.nil)
      (NodeList.cons (Node.elem "span" ["event__score--away"] [] "abc" NodeList.nil)
        NodeList.nil))

/-- Witness for C7: the dash cell of `c7row` parses to a null home score
and its non-numeric away cell to a null away score. -/
theorem C7_score_nullability_witness :
    extract_match_data ⟨2026, 10, 12⟩ c7row emptyLeagueInfo
      = some (buildRecord ⟨2026, 10, 12⟩ c7row emptyLeagueInfo "x1")
    ∧ scoreCellText c7row "event__score--home" = some "-"
    ∧ (buildRecord ⟨2026, 10, 12⟩ c7row emptyLeagueInfo "x1").home_score = none
    ∧ (buildRecord ⟨2026, 10, 12⟩ c7row emptyLeagueInfo "x1").away_score = none :=
  ⟨rfl, rfl,
   (C7_score_nullability ⟨2026, 10, 12⟩ c7row emptyLeagueInfo _ rfl).1 rfl,
   (C7_score_nullability ⟨2026, 10, 12⟩ c7row emptyLeagueInfo _ rfl).2.2.2.2.2 "abc" rfl rfl⟩

/-! ## Claim C10 -/

/-- C10 (corrected).  A row whose id attribute is non-empty and does not
start with `g_1_` is emitted with the raw attribute value as its
`match_id`, unchanged.  However a row is skipped exactly when the derived
identifier is empty — which covers the empty/absent attribute, and also a
non-empty attribute consisting only of `g_1_` markers (the prefix is
stripped via `str.replace`, which can empty the whole attribute). -/
theorem C10_raw_id_kept (today : PyDate) (el : Node) (li : LeagueInfo) :
    (el.getAttrD "id" "" ≠ "" → pyStartsWith (el.getAttrD "id" "") "g_1_" = false →
      extract_match_data today el li
        = some (buildRecord today el li (el.getAttrD "id" ""))
      ∧ (buildRecord today el li (el.getAttrD "id" "")).match_id
        = some (el.getAttrD "id" ""))
    ∧ (extract_match_data today el li = none ↔ derivedMatchId el = "") := by
  constructor
  · intro hne hpre
    have hd : derivedMatchId el = el.getAttrD "id" "" := by
      unfold derivedMatchId
      rw [hpre]
      simp
    rw [extract_match_data_eq_if, hd, if_neg hne]
    exact ⟨rfl, buildRecord_match_id today el li _⟩
  · exact extract_match_data_eq_none

/-- Concrete row whose id attribute is `xg_1_y`: no leading marker, the
attribute is kept whole. -/
def c10row : Node := Node.elem "div" [] [("id", "xg_1_y")] "" NodeList.nil

/-- Witness for C10: the row with id attribute `xg_1_y` is emitted with
`match_id` exactly `xg_1_y`. -/
theorem C10_raw_id_kept_witness :
    extract_match_data ⟨2026, 10, 12⟩ c10row emptyLeagueInfo
      = some (buildRecord ⟨2026, 10, 12⟩ c10row emptyLeagueInfo "xg_1_y")
    ∧ (buildRecord ⟨2026, 10, 12⟩ c10row emptyLeagueInfo "xg_1_y").match_id
      = some "xg_1_y" := by
  have h := (C10_raw_id_kept ⟨2026, 10, 12⟩ c10row emptyLeagueInfo).1 (by decide) (by decide)
  exact h

/-- Concrete row whose id attribute is exactly the marker `g_1_`. -/
def c10skiprow : Node := Node.elem "div" [] [("id", "g_1_")] "" NodeList.nil

/-- Counterexample to C10 as stated: the id attribute `g_1_` is non-empty,
yet the row is skipped — stripping the marker leaves an empty identifier,
so not only empty/absent-id rows are skipped. -/
theorem C10_marker_only_skipped_cex :
    c10skiprow.getAttrD "id" "" = "g_1_"
    ∧ ("g_1_" : String) ≠ ""
    ∧ extract_match_data ⟨2026, 10, 12⟩ c10skiprow emptyLeagueInfo = none := by
  refine ⟨rfl, by decide, rfl⟩

/-! ## Claim C4 -/

/-- C4 (confirmed).  A record whose stage text contains a cancellation
token, in either language, always ends with status `canceled` and the
canceled flag set, regardless of the structural class markers the row
carries — the free-text override wins over the class-derived status. -/
theorem C4_cancel_override (today : PyDate) (el : Node) (li : LeagueInfo)
    (r : MatchRecord) (h : extract_match_data today el li = some r) (s : String)
    (hs : r.match_stage = some s)
    (htok : pyContains s "Cancelado" = true ∨ pyContains s "Canceled" = true) :
    r.match_status = some "canceled" ∧ r.is_canceled = true := by
  obtain ⟨-, rfl⟩ := extract_match_data_eq_some h
  rw [buildRecord_stage] at hs
  rw [buildRecord_status, buildRecord_is_canceled, hs]
  have hse : s ≠ "" := by
    intro he
    subst he
    rcases htok with h1 | h1 <;> exact absurd h1 (by decide)
  have hcond : (pyContains s "Cancelado" || pyContains s "Canceled") = true := by
    rcases htok with h1 | h1 <;> simp [h1]
  simp [applyStageOverride, hse, hcond]

/-- Concrete live-marked row whose stage block reads `Cancelado`. -/
def c4row : Node :=
  Node.elem "div" ["event__match", "event__match--live"] [("id", "c4")] ""
    (NodeList.cons (Node.elem "div" ["event__stage"] [] "Cancelado" NodeList.nil)
      NodeList.nil)

/-- Witness for C4: the live-marked row with stage `Cancelado` ends
canceled. -/
theorem C4_cancel_override_witness :
    extract_match_data ⟨2026, 10, 12⟩ c4row emptyLeagueInfo
      = some (buildRecord ⟨2026, 10, 12⟩ c4row emptyLeagueInfo "c4")
    ∧ (buildRecord ⟨2026, 10, 12⟩ c4row emptyLeagueInfo "c4").match_status = some "canceled"
    ∧ (buildRecord ⟨2026, 10, 12⟩ c4row emptyLeagueInfo "c4").is_canceled = true := by
  have h := C4_cancel_override ⟨2026, 10, 12⟩ c4row emptyLeagueInfo _ rfl "Cancelado"
    (by rfl) (Or.inl (by decide))
  exact ⟨rfl, h.1, h.2⟩

/-! ## Claim C3 -/

/-- Live class-marker check of `extract_match_status`. -/
def liveClassOf (el : Node) : Bool :=
  pyContains (String.intercalate " " el.classes) "event__match--live" ||
    pyContains (String.intercalate " " el.classes) "event__match--twoLine"

/-- Scheduled class-marker check of `extract_match_status`. -/
def schedClassOf (el : Node) : Bool :=
  pyContains (String.intercalate " " el.classes) "event__match--scheduled"

/-- Finished class-marker check of `extract_match_status`. -/
def finClassOf (el : Node) : Bool :=
  pyContains (String.intercalate " " el.classes) "event__match--finished" ||
    pyContains (String.intercalate " " el.classes) "event__match--last"

/-- Presence of any cancellation/postponement token in the stage text. -/
def hasOverrideTok : Option String → Bool
  | none => false
  | some s =>
    pyContains s "Cancelado" || pyContains s "Canceled" ||
      pyContains s "Adiado" || pyContains s "Postponed"

/-- Number of true status booleans of a record. -/
def statusBoolCount (r : MatchRecord) : Nat :=
  (if r.is_live then 1 else 0) + (if r.is_scheduled then 1 else 0) +
    (if r.is_finished then 1 else 0) + (if r.is_canceled then 1 else 0) +
    (if r.is_postponed then 1 else 0)

theorem extract_match_status_eq (el : Node) :
    extract_match_status el
      = ⟨liveClassOf el, schedClassOf el, finClassOf el, false, false,
         if liveClassOf el then "live"
         else if schedClassOf el then "scheduled"
         else if finClassOf el then "finished"
         else "unknown"⟩ := rfl

theorem applyStageOverride_no_tok (si : StatusInfo) (st : Option String)
    (h : hasOverrideTok st = false) : applyStageOverride si st = si := by
  cases st with
  | none => rfl
  | some s =>
    have h' : (pyContains s "Cancelado" || pyContains s "Canceled" ||
        pyContains s "Adiado" || pyContains s "Postponed") = false := h
    have h1 : pyContains s "Cancelado" = false := by
      revert h'
      cases pyContains s "Cancelado" <;> simp
    have h2 : pyContains s "Canceled" = false := by
      revert h'
      cases pyContains s "Canceled" <;> simp
    have h3 : pyContains s "Adiado" = false := by
      revert h'
      cases pyContains s "Adiado" <;> simp
    have h4 : pyContains s "Postponed" = false := by
      revert h'
      cases pyContains s "Postponed" <;> simp
    by_cases hse : s = "" <;> simp [applyStageOverride, hse, h1, h2, h3, h4]

/-- C3 (corrected).  With no stage-text override token present: a row
matching none of the status class groups is built with status `unknown`
and zero true status booleans (not exactly one); a row matching exactly
one of the live/scheduled/finished class groups is built with exactly one
true status boolean, and the status enumeration value names that very
group. -/
theorem C3_status_bool_consistency (today : PyDate) (el : Node) (li : LeagueInfo)
    (r : MatchRecord) (h : extract_match_data today el li = some r)
    (hnotok : hasOverrideTok r.match_stage = false) :
    (liveClassOf el = false → schedClassOf el = false → finClassOf el = false →
       r.match_status = some "unknown" ∧ statusBoolCount r = 0)
    ∧ (liveClassOf el = true → schedClassOf el = false → finClassOf el = false →
       r.match_status = some "live" ∧ statusBoolCount r = 1)
    ∧ (liveClassOf el = false → schedClassOf el = true → finClassOf el = false →
       r.match_status = some "scheduled" ∧ statusBoolCount r = 1)
    ∧ (liveClassOf el = false → schedClassOf el = false → finClassOf el = true →
       r.match_status = some "finished" ∧ statusBoolCount r = 1) := by
  obtain ⟨-, rfl⟩ := extract_match_data_eq_some h
  rw [buildRecord_stage] at hnotok
  have hov := applyStageOverride_no_tok (extract_match_status el) (matchStageOf el) hnotok
  refine ⟨?_, ?_, ?_, ?_⟩ <;>
    · intro h1 h2 h3
      constructor
      · rw [buildRecord_status, hov, extract_match_status_eq]
        simp [h1, h2, h3]
      · unfold statusBoolCount
        rw [buildRecord_is_live, buildRecord_is_scheduled, buildRecord_is_finished,
          buildRecord_is_canceled, buildRecord_is_postponed, hov, extract_match_status_eq]
        simp [h1, h2, h3]

/-- Concrete row with no status class markers at all. -/
def c3unknownRow : Node := Node.elem "div" [] [("id", "c3u")] "" NodeList.nil

/-- Concrete row carrying only the live class marker. -/
def c3liveRow : Node :=
  Node.elem "div" ["event__match", "event__match--live"] [("id", "c3l")] "" NodeList.nil

/-- Witness for C3: the marker-free row is built with status `unknown` and
zero true booleans; the live-only row with status `live` and exactly one
true boolean. -/
theorem C3_status_bool_consistency_witness :
    ((buildRecord ⟨2026, 10, 12⟩ c3unknownRow emptyLeagueInfo "c3u").match_status
        = some "unknown"
      ∧ statusBoolCount (buildRecord ⟨2026, 10, 12⟩ c3unknownRow emptyLeagueInfo "c3u") = 0)
    ∧ ((buildRecord ⟨2026, 10, 12⟩ c3liveRow emptyLeagueInfo "c3l").match_status
        = some "live"
      ∧ statusBoolCount (buildRecord ⟨2026, 10, 12⟩ c3liveRow emptyLeagueInfo "c3l") = 1) :=
  ⟨(C3_status_bool_consistency ⟨2026, 10, 12⟩ c3unknownRow emptyLeagueInfo _ rfl
      (by decide)).1 (by decide) (by decide) (by decide),
   (C3_status_bool_consistency ⟨2026, 10, 12⟩ c3liveRow emptyLeagueInfo _ rfl
      (by decide)).2.1 (by decide) (by decide) (by decide)⟩

/-- Counterexample to C3 as stated: the Record Builder emits a record for
the marker-free row with status `unknown` and zero true status booleans —
not exactly one. -/
theorem C3_zero_true_booleans_cex :
    (extract_match_data ⟨2026, 10, 12⟩ c3unknownRow emptyLeagueInfo).map statusBoolCount
      = some 0
    ∧ (extract_match_data ⟨2026, 10, 12⟩ c3unknownRow emptyLeagueInfo).map
        MatchRecord.match_status = some (some "unknown")
    ∧ (0 : Nat) ≠ 1 := by
  refine ⟨rfl, rfl, by decide⟩

/-! ## Claim C6 -/

/-- C6 (confirmed).  When the primary section/row enumeration yields zero
records the extractor's output is exactly the fallback pass: the flat
document-wide search for match rows, each resolved through the
ancestor-only walk bounded to 10 levels.  In particular a document with no
soccer section at all still yields every record the flat search builds. -/
theorem C6_fallback_activation (today : PyDate) (root : Node) :
    (primaryRecords today root = [] →
      extract_all_matches_from_html today root = fallbackRecords today root)
    ∧ ((docCtxs root).filter (fun c => isSoccerSection c.node) = [] →
      primaryRecords today root = []
      ∧ extract_all_matches_from_html today root = fallbackRecords today root)
    ∧ (primaryRecords today root = [] →
      ∀ rc, rc ∈ (docCtxs root).filter (fun rc => isMatchRow rc.node) →
      ∀ r, extract_match_data today rc.node
          (match ancestorLeague 10 rc.ancestors with
           | some l => l
           | none => emptyLeagueInfo) = some r →
        r ∈ extract_all_matches_from_html today root) := by
  have hmain : primaryRecords today root = [] →
      extract_all_matches_from_html today root = fallbackRecords today root := by
    intro h
    simp [extract_all_matches_from_html, h]
  refine ⟨hmain, ?_, ?_⟩
  · intro hsec
    have hp : primaryRecords today root = [] := by
      unfold primaryRecords
      rw [hsec]
      rfl
    exact ⟨hp, hmain hp⟩
  · intro hp rc hrc r hr
    rw [hmain hp]
    unfold fallbackRecords
    exact List.mem_filterMap.mpr ⟨rc, hrc, hr⟩

/-- Concrete flat match row outside any soccer section. -/
def c6row : Node :=
  Node.elem "div" ["event__match"] [("data-event-row", "true"), ("id", "f1")] "" NodeList.nil

/-- Concrete document with no soccer section but one flat match row. -/
def c6doc : Node :=
  Node.elem "[document]" [] [] "" (NodeList.cons c6row NodeList.nil)

/-- Witness for C6: on the sectionless document the primary pass is empty,
the output equals the fallback pass, and that pass yields the flat row. -/
theorem C6_fallback_activation_witness :
    primaryRecords ⟨2026, 10, 12⟩ c6doc = []
    ∧ extract_all_matches_from_html ⟨2026, 10, 12⟩ c6doc
        = fallbackRecords ⟨2026, 10, 12⟩ c6doc
    ∧ fallbackRecords ⟨2026, 10, 12⟩ c6doc
        = [buildRecord ⟨2026, 10, 12⟩ c6row emptyLeagueInfo "f1"] :=
  ⟨rfl, (C6_fallback_activation ⟨2026, 10, 12⟩ c6doc).1 rfl, rfl⟩

/-! ## Support lemmas for the upsert store -/

/-- Database state after the three entity resolutions of one upsert. -/
def resolvedDB (r : MatchRecord) (db : DB) : DB :=
  (get_or_create_team r.away_team_name r.away_team_logo_url
    (get_or_create_team r.home_team_name r.home_team_logo_url
      (get_or_create_league r.league_name r.league_country
        r.league_flag_class r.league_logo_url db).2).2).2

/-- League id resolved by one upsert. -/
def resolvedLid (r : MatchRecord) (db : DB) : Option Nat :=
  (get_or_create_league r.league_name r.league_country
    r.league_flag_class r.league_logo_url db).1

/-- Home team id resolved by one upsert. -/
def resolvedHid (r : MatchRecord) (db : DB) : Option Nat :=
  (get_or_create_team r.home_team_name r.home_team_logo_url
    (get_or_create_league r.league_name r.league_country
      r.league_flag_class r.league_logo_url db).2).1

/-- Away team id resolved by one upsert. -/
def resolvedAid (r : MatchRecord) (db : DB) : Option Nat :=
  (get_or_create_team r.away_team_name r.away_team_logo_url
    (get_or_create_team r.home_team_name r.home_team_logo_url
      (get_or_create_league r.league_name r.league_country
        r.league_flag_class r.league_logo_url db).2).2).1

theorem ium_eq_cases (now : Nat) (r : MatchRecord) (db : DB) :
    insert_or_update_match now r db
      = (match r.match_id with
         | none => (false, db)
         | some mid =>
           match (resolvedDB r db).matchRows.find? (fun m => m.match_id = mid) with
           | some _ =>
             (true,
              { resolvedDB r db with
                  matchRows := (resolvedDB r db).matchRows.map
                    (fun m =>
                      if m.match_id = mid then
                        updateRowVals r (resolvedLid r db) (resolvedHid r db)
                          (resolvedAid r db) now m
                      else m) })
           | none =>
             (true,
              { resolvedDB r db with
                  matchRows := (resolvedDB r db).matchRows ++
                    [insertRowVals r mid (resolvedLid r db) (resolvedHid r db)
                      (resolvedAid r db) now (resolvedDB r db).nextMatchRowId]
                  nextMatchRowId := (resolvedDB r db).nextMatchRowId + 1 })) := rfl

theorem ium_eq_rollback {r : MatchRecord} (now : Nat) (db : DB)
    (hmid : r.match_id = none) :
    insert_or_update_match now r db = (false, db) := by
  simp only [ium_eq_cases, hmid]

theorem ium_eq_update {r : MatchRecord} {mid : String} {db : DB} {m0 : MatchRow}
    (now : Nat) (hmid : r.match_id = some mid)
    (hfind : (resolvedDB r db).matchRows.find? (fun m => m.match_id = mid) = some m0) :
    insert_or_update_match now r db
      = (true,
         { resolvedDB r db with
             matchRows := (resolvedDB r db).matchRows.map
               (fun m =>
                 if m.match_id = mid then
                   updateRowVals r (resolvedLid r db) (resolvedHid r db) (resolvedAid r db)
                     now m
                 else m) }) := by
  simp only [ium_eq_cases, hmid, hfind]

theorem ium_eq_insert {r : MatchRecord} {mid : String} {db : DB}
    (now : Nat) (hmid : r.match_id = some mid)
    (hfind : (resolvedDB r db).matchRows.find? (fun m => m.match_id = mid) = none) :
    insert_or_update_match now r db
      = (true,
         { resolvedDB r db with
             matchRows := (resolvedDB r db).matchRows ++
               [insertRowVals r mid (resolvedLid r db) (resolvedHid r db) (resolvedAid r db)
                 now (resolvedDB r db).nextMatchRowId]
             nextMatchRowId := (resolvedDB r db).nextMatchRowId + 1 }) := by
  simp only [ium_eq_cases, hmid, hfind]

theorem updateRowVals_match_date (r : MatchRecord) (lid hid aid : Option Nat)
    (now : Nat) (m : MatchRow) :
    (updateRowVals r lid hid aid now m).match_date
      = deriveMatchDate r.scheduled_datetime := rfl

theorem updateRowVals_match_id (r : MatchRecord) (lid hid aid : Option Nat)
    (now : Nat) (m : MatchRow) :
    (updateRowVals r lid hid aid now m).match_id = m.match_id := rfl

theorem insertRowVals_match_date (r : MatchRecord) (mid : String)
    (lid hid aid : Option Nat) (now rowId : Nat) :
    (insertRowVals r mid lid hid aid now rowId).match_date
      = deriveMatchDate r.scheduled_datetime := rfl

theorem insertRowVals_match_id (r : MatchRecord) (mid : String)
    (lid hid aid : Option Nat) (now rowId : Nat) :
    (insertRowVals r mid lid hid aid now rowId).match_id = mid := rfl

/-! ## Claim C9 -/

theorem py_isodate_take10 {s d : String} (h : py_isodate s = some d) :
    d.data = s.data.take 10 := by
  unfold py_isodate at h
  split at h
  · rename_i y1 y2 y3 y4 c1 m1 m2 c2 d1 d2 rest heq
    split at h
    · cases h
      rw [heq]
      rfl
    · cases h
  · cases h

/-- C9 (confirmed).  Every row written by the upsert, inserted or updated,
carries `match_date` equal to the derivation from the record's
`scheduled_datetime`: `none` when that value is absent, empty or not a
parseable ISO instant, and otherwise exactly the date component (the first
ten characters) of the instant. -/
theorem C9_match_date_from_scheduled (now : Nat) (r : MatchRecord) (db : DB)
    (row : MatchRow)
    (hrow : row ∈ (insert_or_update_match now r db).2.matchRows)
    (hid : r.match_id = some row.match_id) :
    row.match_date = deriveMatchDate r.scheduled_datetime
    ∧ (∀ s d, r.scheduled_datetime = some s → py_isodate s = some d →
        d.data = s.data.take 10)
    ∧ (r.scheduled_datetime = none → row.match_date = none) := by
  have hmain : row.match_date = deriveMatchDate r.scheduled_datetime := by
    rcases hfind : (resolvedDB r db).matchRows.find? (fun m => m.match_id = row.match_id)
      with _ | m0
    · rw [ium_eq_insert now hid hfind] at hrow
      rcases List.mem_append.mp hrow with hold | hnew
      · exact absurd (List.find?_eq_none.mp hfind row hold) (by simp)
      · have he := List.mem_singleton.mp hnew
        have hd := congrArg MatchRow.match_date he
        rw [insertRowVals_match_date] at hd
        exact hd
    · rw [ium_eq_update now hid hfind] at hrow
      obtain ⟨m, hm, hmap⟩ := List.mem_map.mp hrow
      by_cases hmid : m.match_id = row.match_id
      · rw [if_pos hmid] at hmap
        rw [← hmap]
        exact updateRowVals_match_date r _ _ _ now m
      · rw [if_neg hmid] at hmap
        subst hmap
        exact absurd rfl hmid
  refine ⟨hmain, ?_, ?_⟩
  · intro s d hs hd
    exact py_isodate_take10 hd
  · intro hnone
    rw [hmain, hnone]
    rfl

/-- Record used by the C9 witness, with a parseable scheduled instant. -/
def c9rec : MatchRecord :=
  { match_id := some "m9", match_url := none, league_name := none,
    league_country := none, league_flag_class := none, league_logo_url := none,
    match_time := some "15:30", scheduled_datetime := some "2026-10-12T15:30:00",
    home_team_name := none, home_team_logo_url := none, away_team_name := none,
    away_team_logo_url := none, home_score := none, away_score := none,
    home_red_cards := none, away_red_cards := none, match_status := some "scheduled",
    match_stage := none, is_live := false, is_scheduled := true, is_finished := false,
    is_canceled := false, is_postponed := false, has_tv_icon := false,
    has_audio_icon := false, has_info_icon := false, half_time := none,
    current_minute := none }

/-- Witness for C9: inserting `c9rec` into the empty database stores
`match_date = "2026-10-12"`, the date component of its scheduled instant. -/
theorem C9_match_date_from_scheduled_witness :
    (insert_or_update_match 7 c9rec emptyDB).2.matchRows.map MatchRow.match_date
      = [some "2026-10-12"]
    ∧ (insertRowVals c9rec "m9" none none none 7 1).match_date
      = deriveMatchDate c9rec.scheduled_datetime
    ∧ ("2026-10-12" : String).data = ("2026-10-12T15:30:00" : String).data.take 10 := by
  refine ⟨rfl, ?_, ?_⟩
  · exact (C9_match_date_from_scheduled 7 c9rec emptyDB
      (insertRowVals c9rec "m9" none none none 7 1) (by decide) (by decide)).1
  · exact (C9_match_date_from_scheduled 7 c9rec emptyDB
      (insertRowVals c9rec "m9" none none none 7 1) (by decide) (by decide)).2.1
      "2026-10-12T15:30:00" "2026-10-12" rfl rfl

/-! ## Claim C8 -/

theorem save_batch_aux_count (u : MatchRecord → DB → Bool × DB)
    (recs : List MatchRecord) (db : DB) :
    (save_batch_aux u recs db).1 + (save_batch_aux u recs db).2.1.length
      = recs.length := by
  induction recs generalizing db with
  | nil => rfl
  | cons r' rs ih =>
    simp only [save_batch_aux]
    by_cases hstep : (u r' db).1 = true
    · rw [if_pos hstep]
      have h := ih (u r' db).2
      simp only [List.length_cons]
      omega
    · rw [if_neg hstep]
      have h := ih (u r' db).2
      simp only [List.length_cons]
      omega

/-- C8 (confirmed).  The batch save accounts for every record (successes
plus failures sum to the batch size), a failed record is appended to the
failure list and the loop continues with the next record on the same
database the failed upsert left (which, for the embedded store, is the
unchanged database: the per-record transaction is rolled back), the batch
saver is exactly this loop over `insert_or_update_match`, and the report
displays at most the first five failed identifiers plus the count of the
remainder. -/
theorem C8_batch_failure_handling (u : MatchRecord → DB → Bool × DB)
    (recs : List MatchRecord) (r : MatchRecord) (db : DB) (now : Nat)
    (failed : List (Option String)) :
    ((save_batch_aux u recs db).1 + (save_batch_aux u recs db).2.1.length = recs.length)
    ∧ ((u r db).1 = false →
        save_batch_aux u (r :: recs) db
          = ((save_batch_aux u recs (u r db).2).1,
             r.match_id :: (save_batch_aux u recs (u r db).2).2.1,
             (save_batch_aux u recs (u r db).2).2.2))
    ∧ ((insert_or_update_match now r db).1 = false →
        (insert_or_update_match now r db).2 = db)
    ∧ (save_matches_to_database now recs db = save_batch_aux (insert_or_update_match now) recs db)
    ∧ ((failureReport failed).displayed = failed.take 5
       ∧ (failureReport failed).displayed.length ≤ 5
       ∧ (failureReport failed).overflowCount
          = (if failed.length > 5 then some (failed.length - 5) else none)) := by
  refine ⟨save_batch_aux_count u recs db, ?_, ?_, rfl, rfl, ?_, rfl⟩
  · intro hfail
    simp only [save_batch_aux, hfail]
    rfl
  · intro hfail
    rcases hmid : r.match_id with _ | mid
    · rw [ium_eq_rollback now db hmid]
    · rcases hfind : (resolvedDB r db).matchRows.find? (fun m => m.match_id = mid)
        with _ | m0
      · rw [ium_eq_insert now hmid hfind] at hfail
        cases hfail
      · rw [ium_eq_update now hmid hfind] at hfail
        cases hfail
  · show (failureReport failed).displayed.length ≤ 5
    show (failed.take 5).length ≤ 5
    exact le_trans (le_of_eq (List.length_take 5 failed)) (min_le_left 5 failed.length)

/-- Record whose dictionary carries no identifier value: the upsert's
insert violates the `NOT NULL` constraint and fails. -/
def c8badRec : MatchRecord :=
  { match_id := none, match_url := none, league_name := none,
    league_country := none, league_flag_class := none, league_logo_url := none,
    match_time := none, scheduled_datetime := none, home_team_name := none,
    home_team_logo_url := none, away_team_name := none, away_team_logo_url := none,
    home_score := none, away_score := none, home_red_cards := none,
    away_red_cards := none, match_status := some "unknown", match_stage := none,
    is_live := false, is_scheduled := false, is_finished := false,
    is_canceled := false, is_postponed := false, has_tv_icon := false,
    has_audio_icon := false, has_info_icon := false, half_time := none,
    current_minute := none }

/-- Witness for C8: a two-record batch whose first record fails — the
count and failure list sum to the batch size, the loop continues past the
failure, and the failed upsert leaves the database unchanged. -/
theorem C8_batch_failure_handling_witness :
    ((save_batch_aux (insert_or_update_match 5) [c8badRec, c9rec] emptyDB).1
        + (save_batch_aux (insert_or_update_match 5) [c8badRec, c9rec] emptyDB).2.1.length
      = 2)
    ∧ (save_batch_aux (insert_or_update_match 5) (c8badRec :: [c9rec]) emptyDB
        = ((save_batch_aux (insert_or_update_match 5) [c9rec]
              (insert_or_update_match 5 c8badRec emptyDB).2).1,
           c8badRec.match_id ::
             (save_batch_aux (insert_or_update_match 5) [c9rec]
               (insert_or_update_match 5 c8badRec emptyDB).2).2.1,
           (save_batch_aux (insert_or_update_match 5) [c9rec]
             (insert_or_update_match 5 c8badRec emptyDB).2).2.2))
    ∧ (insert_or_update_match 5 c8badRec emptyDB).2 = emptyDB :=
  ⟨(C8_batch_failure_handling (insert_or_update_match 5) [c8badRec, c9rec] c8badRec emptyDB 5
      []).1,
   (C8_batch_failure_handling (insert_or_update_match 5) [c9rec] c8badRec emptyDB 5 []).2.1
     (by rfl),
   (C8_batch_failure_handling (insert_or_update_match 5) [c9rec] c8badRec emptyDB 5 []).2.2.1
     (by rfl)⟩

/-! ## Claim C1: definitions -/

/-- League id by pure lookup in a fixed state. -/
def lookLeagueId (db : DB) (n : String) (c : Option String) : Option Nat :=
  (db.leagues.find? (leagueKeyMatch n c)).map LeagueRow.id

/-- Team id by pure lookup in a fixed state. -/
def lookTeamId (db : DB) (n : String) : Option Nat :=
  (db.teams.find? (fun t => t.name = n)).map TeamRow.id

/-- League id a record resolves to, by pure lookup. -/
def lookLid (db : DB) (r : MatchRecord) : Option Nat :=
  match r.league_name with
  | none => none
  | some n => if n = "" then none else lookLeagueId db n r.league_country

/-- Team id an optional name resolves to, by pure lookup. -/
def lookTid (db : DB) (nm : Option String) : Option Nat :=
  match nm with
  | none => none
  | some n => if n = "" then none else lookTeamId db n

/-- One record's write with ids resolved by pure lookup in `dbL`. -/
def writtenVals (dbL : DB) (now : Nat) (r : MatchRecord) (m : MatchRow) : MatchRow :=
  updateRowVals r (lookLid dbL r) (lookTid dbL r.home_team_name)
    (lookTid dbL r.away_team_name) now m

/-- The match-table effect of one upsert, with entity ids resolved by pure
lookup in the fixed state `dbL`. -/
def pureUpsertRow (dbL : DB) (now : Nat) (r : MatchRecord) :
    List MatchRow × Nat → List MatchRow × Nat
  | (ms, ctr) =>
    match r.match_id with
    | none => (ms, ctr)
    | some mid =>
      match ms.find? (fun m => m.match_id = mid) with
      | some _ =>
        (ms.map (fun m => if m.match_id = mid then writtenVals dbL now r m else m), ctr)
      | none =>
        (ms ++ [insertRowVals r mid (lookLid dbL r) (lookTid dbL r.home_team_name)
          (lookTid dbL r.away_team_name) now ctr], ctr + 1)

/-- Match-table effect of a whole batch, entity ids from `dbL`. -/
def pureFold (dbL : DB) (now : Nat) (recs : List MatchRecord)
    (st : List MatchRow × Nat) : List MatchRow × Nat :=
  recs.foldl (fun st r => pureUpsertRow dbL now r st) st

/-- The last record of the batch carrying a given key. -/
def lastRecWith (recs : List MatchRecord) (k : String) : Option MatchRecord :=
  recs.reverse.find? (fun r => r.match_id = some k)

/-- A record the double-upsert claim covers: either it fails outright
(no identifier), or it carries no league name, or its league country is
not SQL `NULL`. -/
def GoodRec (r : MatchRecord) : Prop :=
  r.match_id = none ∨ pyFalsyOpt r.league_name = true ∨ r.league_country ≠ none

/-- League rows equal up to the mutable `logo_url`. -/
def simL (a b : LeagueRow) : Prop :=
  a.id = b.id ∧ a.name = b.name ∧ a.country = b.country ∧ a.flag_class = b.flag_class

/-- Team rows equal up to the mutable `logo_url`. -/
def simT (a b : TeamRow) : Prop :=
  a.id = b.id ∧ a.name = b.name

/-- Match rows with identical field values except `updated_at`. -/
def simM (a b : MatchRow) : Prop :=
  a.id = b.id ∧ a.match_id = b.match_id ∧ a.match_url = b.match_url
    ∧ a.league_id = b.league_id ∧ a.home_team_id = b.home_team_id
    ∧ a.away_team_id = b.away_team_id ∧ a.match_time = b.match_time
    ∧ a.match_date = b.match_date ∧ a.scheduled_datetime = b.scheduled_datetime
    ∧ a.home_score = b.home_score ∧ a.away_score = b.away_score
    ∧ a.home_red_cards = b.home_red_cards ∧ a.away_red_cards = b.away_red_cards
    ∧ a.match_status = b.match_status ∧ a.match_stage = b.match_stage
    ∧ a.is_live = b.is_live ∧ a.is_scheduled = b.is_scheduled
    ∧ a.is_finished = b.is_finished ∧ a.is_canceled = b.is_canceled
    ∧ a.is_postponed = b.is_postponed ∧ a.has_tv_icon = b.has_tv_icon
    ∧ a.has_audio_icon = b.has_audio_icon ∧ a.has_info_icon = b.has_info_icon
    ∧ a.half_time = b.half_time ∧ a.current_minute = b.current_minute
    ∧ a.scraped_at = b.scraped_at

/-- Number of match rows carrying a given key. -/
def countKey (db : DB) (k : String) : Nat :=
  (db.matchRows.filter (fun m => m.match_id = k)).length

/-! ## Claim C1: table-shape lemmas -/

theorem gcl_other (name c f lo : Option String) (db : DB) :
    (get_or_create_league name c f lo db).2.teams = db.teams
    ∧ (get_or_create_league name c f lo db).2.matchRows = db.matchRows
    ∧ (get_or_create_league name c f lo db).2.nextTeamId = db.nextTeamId
    ∧ (get_or_create_league name c f lo db).2.nextMatchRowId = db.nextMatchRowId := by
  match name with
  | none => exact ⟨rfl, rfl, rfl, rfl⟩
  | some n =>
    by_cases hn : n = ""
    · subst hn
      exact ⟨rfl, rfl, rfl, rfl⟩
    · rcases h : db.leagues.find? (leagueKeyMatch n c) with _ | l
      · rw [gcl_eq_notfound hn h f lo]
        exact ⟨rfl, rfl, rfl, rfl⟩
      · rw [gcl_eq_found hn h f lo]
        split <;> exact ⟨rfl, rfl, rfl, rfl⟩

theorem gct_other (name lo : Option String) (db : DB) :
    (get_or_create_team name lo db).2.leagues = db.leagues
    ∧ (get_or_create_team name lo db).2.matchRows = db.matchRows
    ∧ (get_or_create_team name lo db).2.nextLeagueId = db.nextLeagueId
    ∧ (get_or_create_team name lo db).2.nextMatchRowId = db.nextMatchRowId := by
  match name with
  | none => exact ⟨rfl, rfl, rfl, rfl⟩
  | some n =>
    by_cases hn : n = ""
    · subst hn
      exact ⟨rfl, rfl, rfl, rfl⟩
    · rcases h : db.teams.find? (fun t => t.name = n) with _ | t
      · rw [gct_eq_notfound hn h lo]
        exact ⟨rfl, rfl, rfl, rfl⟩
      · rw [gct_eq_found hn h lo]
        split <;> exact ⟨rfl, rfl, rfl, rfl⟩

theorem resolvedDB_matchRows (r : MatchRecord) (db : DB) :
    (resolvedDB r db).matchRows = db.matchRows
    ∧ (resolvedDB r db).nextMatchRowId = db.nextMatchRowId := by
  unfold resolvedDB
  constructor
  · rw [(gct_other _ _ _).2.1, (gct_other _ _ _).2.1, (gcl_other _ _ _ _ _).2.1]
  · rw [(gct_other _ _ _).2.2.2, (gct_other _ _ _).2.2.2, (gcl_other _ _ _ _ _).2.2.2]

theorem ium_tables {r : MatchRecord} {mid : String} (now : Nat) (db : DB)
    (hmid : r.match_id = some mid) :
    (insert_or_update_match now r db).2.leagues = (resolvedDB r db).leagues
    ∧ (insert_or_update_match now r db).2.teams = (resolvedDB r db).teams := by
  rcases hfind : (resolvedDB r db).matchRows.find? (fun m => m.match_id = mid) with _ | m0
  · rw [ium_eq_insert now hmid hfind]
    exact ⟨rfl, rfl⟩
  · rw [ium_eq_update now hmid hfind]
    exact ⟨rfl, rfl⟩

/-! ## Claim C1: lookup stability -/

theorem lookLeagueId_gcl {db : DB} {n : String} {c : Option String} {i : Nat}
    (name c' f lo : Option String)
    (h : lookLeagueId db n c = some i) :
    lookLeagueId (get_or_create_league name c' f lo db).2 n c = some i := by
  match name with
  | none => exact h
  | some n' =>
    by_cases hn' : n' = ""
    · subst hn'
      exact h
    · rcases hf : db.leagues.find? (leagueKeyMatch n' c') with _ | l
      · rw [gcl_eq_notfound hn' hf f lo]
        obtain ⟨l0, hl0, hid⟩ := Option.map_eq_some'.mp h
        show ((db.leagues ++ [(⟨db.nextLeagueId, n', c', f, lo⟩ : LeagueRow)]).find?
          (leagueKeyMatch n c)).map LeagueRow.id = some i
        rw [List.find?_append, hl0]
        simp [hid]
      · rw [gcl_eq_found hn' hf f lo]
        split
        · obtain ⟨l0, hl0, hid⟩ := Option.map_eq_some'.mp h
          show ((db.leagues.map (updLeagueLogo lo l.id)).find?
            (leagueKeyMatch n c)).map LeagueRow.id = some i
          rw [find?_map_updLeagueLogo, hl0]
          simp [updLeagueLogo_id, hid]
        · exact h

theorem lookTeamId_gct {db : DB} {n : String} {i : Nat} (name lo : Option String)
    (h : lookTeamId db n = some i) :
    lookTeamId (get_or_create_team name lo db).2 n = some i := by
  match name with
  | none => exact h
  | some n' =>
    by_cases hn' : n' = ""
    · subst hn'
      exact h
    · rcases hf : db.teams.find? (fun t => t.name = n') with _ | t
      · rw [gct_eq_notfound hn' hf lo]
        obtain ⟨t0, ht0, hid⟩ := Option.map_eq_some'.mp h
        show ((db.teams ++ [(⟨db.nextTeamId, n', lo⟩ : TeamRow)]).find?
          (fun t : TeamRow => t.name = n)).map TeamRow.id = some i
        rw [List.find?_append, ht0]
        simp [hid]
      · rw [gct_eq_found hn' hf lo]
        split
        · obtain ⟨t0, ht0, hid⟩ := Option.map_eq_some'.mp h
          show ((db.teams.map (updTeamLogo lo t.id)).find?
            (fun x => x.name = n)).map TeamRow.id = some i
          rw [find?_map_updTeamLogo, ht0]
          simp [updTeamLogo_id, hid]
        · exact h

theorem lookLeagueId_eq_of_leagues {db db' : DB} (h : db'.leagues = db.leagues)
    (n : String) (c : Option String) :
    lookLeagueId db' n c = lookLeagueId db n c := by
  unfold lookLeagueId
  rw [h]

theorem lookTeamId_eq_of_teams {db db' : DB} (h : db'.teams = db.teams) (n : String) :
    lookTeamId db' n = lookTeamId db n := by
  unfold lookTeamId
  rw [h]

theorem lookLeagueId_ium {db : DB} {n : String} {c : Option String} {i : Nat}
    (now : Nat) (r : MatchRecord)
    (h : lookLeagueId db n c = some i) :
    lookLeagueId (insert_or_update_match now r db).2 n c = some i := by
  rcases hmid : r.match_id with _ | mid
  · rw [ium_eq_rollback now db hmid]
    exact h
  · rw [lookLeagueId_eq_of_leagues (ium_tables now db hmid).1]
    unfold resolvedDB
    rw [lookLeagueId_eq_of_leagues (gct_other _ _ _).1,
      lookLeagueId_eq_of_leagues (gct_other _ _ _).1]
    exact lookLeagueId_gcl _ _ _ _ h

theorem lookTeamId_ium {db : DB} {n : String} {i : Nat}
    (now : Nat) (r : MatchRecord)
    (h : lookTeamId db n = some i) :
    lookTeamId (insert_or_update_match now r db).2 n = some i := by
  rcases hmid : r.match_id with _ | mid
  · rw [ium_eq_rollback now db hmid]
    exact h
  · rw [lookTeamId_eq_of_teams (ium_tables now db hmid).2]
    unfold resolvedDB
    refine lookTeamId_gct _ _ (lookTeamId_gct _ _ ?_)
    rw [lookTeamId_eq_of_teams (gcl_other _ _ _ _ _).1]
    exact h

theorem run_batch_cons (now : Nat) (r : MatchRecord) (rs : List MatchRecord) (db : DB) :
    run_batch now (r :: rs) db = run_batch now rs (insert_or_update_match now r db).2 := by
  unfold run_batch save_matches_to_database
  simp only [save_batch_aux]
  by_cases h : (insert_or_update_match now r db).1 = true
  · rw [if_pos h]
  · rw [if_neg h]

theorem lookLeagueId_run {n : String} {c : Option String} {i : Nat}
    (now : Nat) (recs : List MatchRecord) (db : DB)
    (h : lookLeagueId db n c = some i) :
    lookLeagueId (run_batch now recs db) n c = some i := by
  induction recs generalizing db with
  | nil => exact h
  | cons r rs ih =>
    rw [run_batch_cons]
    exact ih _ (lookLeagueId_ium now r h)

theorem lookTeamId_run {n : String} {i : Nat}
    (now : Nat) (recs : List MatchRecord) (db : DB)
    (h : lookTeamId db n = some i) :
    lookTeamId (run_batch now recs db) n = some i := by
  induction recs generalizing db with
  | nil => exact h
  | cons r rs ih =>
    rw [run_batch_cons]
    exact ih _ (lookTeamId_ium now r h)

/-! ## Claim C1: presence of resolved entities -/

theorem gcl_isSome {n : String} (hn : n ≠ "") (c f lo : Option String) (db : DB) :
    ∃ k, (get_or_create_league (some n) c f lo db).1 = some k := by
  rcases hf : db.leagues.find? (leagueKeyMatch n c) with _ | l
  · rw [gcl_eq_notfound hn hf f lo]
    exact ⟨db.nextLeagueId, rfl⟩
  · rw [gcl_eq_found hn hf f lo]
    exact ⟨l.id, rfl⟩

theorem gct_isSome {n : String} (hn : n ≠ "") (lo : Option String) (db : DB) :
    ∃ k, (get_or_create_team (some n) lo db).1 = some k := by
  rcases hf : db.teams.find? (fun t => t.name = n) with _ | t
  · rw [gct_eq_notfound hn hf lo]
    exact ⟨db.nextTeamId, rfl⟩
  · rw [gct_eq_found hn hf lo]
    exact ⟨t.id, rfl⟩

theorem gcl_present {n : String} {c : Option String} (hn : n ≠ "") (hc : c ≠ none)
    (f lo : Option String) (db : DB) :
    lookLeagueId (get_or_create_league (some n) c f lo db).2 n c
      = (get_or_create_league (some n) c f lo db).1 := by
  obtain ⟨cv, rfl⟩ := Option.ne_none_iff_exists'.mp hc
  rcases hf : db.leagues.find? (leagueKeyMatch n (some cv)) with _ | l
  · rw [gcl_eq_notfound hn hf f lo]
    show ((db.leagues ++ [(⟨db.nextLeagueId, n, some cv, f, lo⟩ : LeagueRow)]).find?
      (leagueKeyMatch n (some cv))).map LeagueRow.id = some db.nextLeagueId
    rw [List.find?_append, hf]
    simp [List.find?, leagueKeyMatch]
  · rw [gcl_eq_found hn hf f lo]
    split
    · show ((db.leagues.map (updLeagueLogo lo l.id)).find?
        (leagueKeyMatch n (some cv))).map LeagueRow.id = some l.id
      rw [find?_map_updLeagueLogo, hf]
      simp [updLeagueLogo_id]
    · show (db.leagues.find? (leagueKeyMatch n (some cv))).map LeagueRow.id = some l.id
      rw [hf]
      rfl

theorem gct_present {n : String} (hn : n ≠ "") (lo : Option String) (db : DB) :
    lookTeamId (get_or_create_team (some n) lo db).2 n
      = (get_or_create_team (some n) lo db).1 := by
  rcases hf : db.teams.find? (fun t => t.name = n) with _ | t
  · rw [gct_eq_notfound hn hf lo]
    show ((db.teams ++ [(⟨db.nextTeamId, n, lo⟩ : TeamRow)]).find?
      (fun t : TeamRow => t.name = n)).map TeamRow.id = some db.nextTeamId
    rw [List.find?_append, hf]
    simp [List.find?]
  · rw [gct_eq_found hn hf lo]
    split
    · show ((db.teams.map (updTeamLogo lo t.id)).find?
        (fun x : TeamRow => x.name = n)).map TeamRow.id = some t.id
      rw [find?_map_updTeamLogo, hf]
      simp [updTeamLogo_id]
    · show (db.teams.find? (fun t : TeamRow => t.name = n)).map TeamRow.id = some t.id
      rw [hf]
      rfl

theorem ium_present_league {r : MatchRecord} {mid : String} {n : String}
    (now : Nat) (db : DB) (hmid : r.match_id = some mid)
    (hname : r.league_name = some n) (hn : n ≠ "") (hcn : r.league_country ≠ none) :
    lookLeagueId (insert_or_update_match now r db).2 n r.league_country
      = resolvedLid r db := by
  rw [lookLeagueId_eq_of_leagues (ium_tables now db hmid).1]
  unfold resolvedDB resolvedLid
  rw [lookLeagueId_eq_of_leagues (gct_other _ _ _).1,
    lookLeagueId_eq_of_leagues (gct_other _ _ _).1, hname]
  exact gcl_present hn hcn _ _ db

theorem ium_present_home {r : MatchRecord} {mid n : String}
    (now : Nat) (db : DB) (hmid : r.match_id = some mid)
    (hname : r.home_team_name = some n) (hn : n ≠ "") :
    lookTeamId (insert_or_update_match now r db).2 n = resolvedHid r db := by
  rw [lookTeamId_eq_of_teams (ium_tables now db hmid).2]
  unfold resolvedDB resolvedHid
  rw [hname]
  obtain ⟨k, hk⟩ := gct_isSome hn r.home_team_logo_url
    (get_or_create_league r.league_name r.league_country r.league_flag_class
      r.league_logo_url db).2
  rw [hk]
  refine lookTeamId_gct _ _ ?_
  rw [← hk]
  exact gct_present hn _ _

theorem ium_present_away {r : MatchRecord} {mid n : String}
    (now : Nat) (db : DB) (hmid : r.match_id = some mid)
    (hname : r.away_team_name = some n) (hn : n ≠ "") :
    lookTeamId (insert_or_update_match now r db).2 n = resolvedAid r db := by
  rw [lookTeamId_eq_of_teams (ium_tables now db hmid).2]
  unfold resolvedDB resolvedAid
  rw [hname]
  exact gct_present hn _ _

/-! ## Claim C1: resolved ids equal final-state lookups -/

theorem resolvedLid_eq_final {r : MatchRecord} {mid : String}
    (now : Nat) (rs : List MatchRecord) (db : DB)
    (hmid : r.match_id = some mid) (hgood : GoodRec r) :
    lookLid (run_batch now rs (insert_or_update_match now r db).2) r
      = resolvedLid r db := by
  rcases hname : r.league_name with _ | n
  · unfold lookLid resolvedLid
    rw [hname]
    rfl
  · by_cases hn : n = ""
    · subst hn
      unfold lookLid resolvedLid
      rw [hname]
      rfl
    · have hcn : r.league_country ≠ none := by
        rcases hgood with h | h | h
        · rw [hmid] at h
          cases h
        · rw [hname] at h
          simp [pyFalsyOpt] at h
          exact absurd h hn
        · exact h
      have h1 := ium_present_league now db hmid hname hn hcn
      obtain ⟨k, hk⟩ : ∃ k, resolvedLid r db = some k := by
        unfold resolvedLid
        rw [hname]
        exact gcl_isSome hn _ _ _ _
      rw [hk] at h1
      have h3 := lookLeagueId_run now rs _ h1
      unfold lookLid
      rw [hname]
      show (if n = "" then none
        else lookLeagueId (run_batch now rs (insert_or_update_match now r db).2) n
          r.league_country) = resolvedLid r db
      rw [if_neg hn, h3, hk]

theorem resolvedHid_eq_final {r : MatchRecord} {mid : String}
    (now : Nat) (rs : List MatchRecord) (db : DB) (hmid : r.match_id = some mid) :
    lookTid (run_batch now rs (insert_or_update_match now r db).2) r.home_team_name
      = resolvedHid r db := by
  rcases hname : r.home_team_name with _ | n
  · unfold lookTid resolvedHid
    rw [hname]
    rfl
  · by_cases hn : n = ""
    · subst hn
      unfold lookTid resolvedHid
      rw [hname]
      rfl
    · have h1 := ium_present_home now db hmid hname hn
      obtain ⟨k, hk⟩ : ∃ k, resolvedHid r db = some k := by
        unfold resolvedHid
        rw [hname]
        exact gct_isSome hn _ _
      rw [hk] at h1
      have h3 := lookTeamId_run now rs _ h1
      unfold lookTid
      show (if n = "" then none
        else lookTeamId (run_batch now rs (insert_or_update_match now r db).2) n)
        = resolvedHid r db
      rw [if_neg hn, h3, hk]

theorem resolvedAid_eq_final {r : MatchRecord} {mid : String}
    (now : Nat) (rs : List MatchRecord) (db : DB) (hmid : r.match_id = some mid) :
    lookTid (run_batch now rs (insert_or_update_match now r db).2) r.away_team_name
      = resolvedAid r db := by
  rcases hname : r.away_team_name with _ | n
  · unfold lookTid resolvedAid
    rw [hname]
    rfl
  · by_cases hn : n = ""
    · subst hn
      unfold lookTid resolvedAid
      rw [hname]
      rfl
    · have h1 := ium_present_away now db hmid hname hn
      obtain ⟨k, hk⟩ : ∃ k, resolvedAid r db = some k := by
        unfold resolvedAid
        rw [hname]
        exact gct_isSome hn _ _
      rw [hk] at h1
      have h3 := lookTeamId_run now rs _ h1
      unfold lookTid
      show (if n = "" then none
        else lookTeamId (run_batch now rs (insert_or_update_match now r db).2) n)
        = resolvedAid r db
      rw [if_neg hn, h3, hk]

/-! ## Claim C1: run characterization as a pure fold -/

theorem pureFold_cons (dbL : DB) (now : Nat) (r : MatchRecord) (rs : List MatchRecord)
    (st : List MatchRow × Nat) :
    pureFold dbL now (r :: rs) st = pureFold dbL now rs (pureUpsertRow dbL now r st) := rfl

theorem run_batch_char (now : Nat) (recs : List MatchRecord) (db : DB)
    (hgood : ∀ r ∈ recs, GoodRec r) :
    ((run_batch now recs db).matchRows, (run_batch now recs db).nextMatchRowId)
      = pureFold (run_batch now recs db) now recs (db.matchRows, db.nextMatchRowId) := by
  induction recs generalizing db with
  | nil => rfl
  | cons r rs ih =>
    rw [run_batch_cons, pureFold_cons]
    have hIH := ih (insert_or_update_match now r db).2
      (fun x hx => hgood x (List.mem_cons_of_mem r hx))
    have hstep : pureUpsertRow (run_batch now rs (insert_or_update_match now r db).2) now r
        (db.matchRows, db.nextMatchRowId)
        = ((insert_or_update_match now r db).2.matchRows,
           (insert_or_update_match now r db).2.nextMatchRowId) := by
      rcases hmid : r.match_id with _ | mid
      · rw [ium_eq_rollback now db hmid]
        simp [pureUpsertRow, hmid]
      · have hLid := resolvedLid_eq_final now rs db hmid (hgood r (List.mem_cons_self r rs))
        have hHid := resolvedHid_eq_final now rs db hmid
        have hAid := resolvedAid_eq_final now rs db hmid
        rcases hfind : db.matchRows.find? (fun m => m.match_id = mid) with _ | m0
        · have hfind' : (resolvedDB r db).matchRows.find? (fun m => m.match_id = mid)
              = none := by
            rw [(resolvedDB_matchRows r db).1]
            exact hfind
          simp only [pureUpsertRow, hmid, hfind]
          rw [hLid, hHid, hAid, ium_eq_insert now hmid hfind',
            (resolvedDB_matchRows r db).1, (resolvedDB_matchRows r db).2]
        · have hfind' : (resolvedDB r db).matchRows.find? (fun m => m.match_id = mid)
              = some m0 := by
            rw [(resolvedDB_matchRows r db).1]
            exact hfind
          simp only [pureUpsertRow, hmid, hfind]
          unfold writtenVals
          rw [hLid, hHid, hAid, ium_eq_update now hmid hfind']
          simp only [(resolvedDB_matchRows r db).1, (resolvedDB_matchRows r db).2]
    rw [hstep]
    exact hIH

/-! ## Claim C1: presence in the pass-one final state -/

theorem run_present_league {r : MatchRecord} {mid n : String}
    (now : Nat) (recs : List MatchRecord) (db : DB)
    (hr : r ∈ recs) (hmid : r.match_id = some mid)
    (hname : r.league_name = some n) (hn : n ≠ "") (hcn : r.league_country ≠ none) :
    ∃ k, lookLeagueId (run_batch now recs db) n r.league_country = some k := by
  induction recs generalizing db with
  | nil => cases hr
  | cons r0 rs ih =>
    rw [run_batch_cons]
    rcases List.mem_cons.mp hr with rfl | hr'
    · obtain ⟨k, hk⟩ : ∃ k, resolvedLid r db = some k := by
        unfold resolvedLid
        rw [hname]
        exact gcl_isSome hn _ _ _ _
      have h1 := ium_present_league now db hmid hname hn hcn
      rw [hk] at h1
      exact ⟨k, lookLeagueId_run now rs _ h1⟩
    · exact ih _ hr'

theorem run_present_home {r : MatchRecord} {mid n : String}
    (now : Nat) (recs : List MatchRecord) (db : DB)
    (hr : r ∈ recs) (hmid : r.match_id = some mid)
    (hname : r.home_team_name = some n) (hn : n ≠ "") :
    ∃ k, lookTeamId (run_batch now recs db) n = some k := by
  induction recs generalizing db with
  | nil => cases hr
  | cons r0 rs ih =>
    rw [run_batch_cons]
    rcases List.mem_cons.mp hr with rfl | hr'
    · obtain ⟨k, hk⟩ : ∃ k, resolvedHid r db = some k := by
        unfold resolvedHid
        rw [hname]
        exact gct_isSome hn _ _
      have h1 := ium_present_home now db hmid hname hn
      rw [hk] at h1
      exact ⟨k, lookTeamId_run now rs _ h1⟩
    · exact ih _ hr'

theorem run_present_away {r : MatchRecord} {mid n : String}
    (now : Nat) (recs : List MatchRecord) (db : DB)
    (hr : r ∈ recs) (hmid : r.match_id = some mid)
    (hname : r.away_team_name = some n) (hn : n ≠ "") :
    ∃ k, lookTeamId (run_batch now recs db) n = some k := by
  induction recs generalizing db with
  | nil => cases hr
  | cons r0 rs ih =>
    rw [run_batch_cons]
    rcases List.mem_cons.mp hr with rfl | hr'
    · obtain ⟨k, hk⟩ : ∃ k, resolvedAid r db = some k := by
        unfold resolvedAid
        rw [hname]
        exact gct_isSome hn _ _
      have h1 := ium_present_away now db hmid hname hn
      rw [hk] at h1
      exact ⟨k, lookTeamId_run now rs _ h1⟩
    · exact ih _ hr'

/-! ## Claim C1: similar tables give equal lookups -/

theorem find?_id_congr_L {xs ys : List LeagueRow} (h : List.Forall₂ simL xs ys)
    (n : String) (c : Option String) :
    (xs.find? (leagueKeyMatch n c)).map LeagueRow.id
      = (ys.find? (leagueKeyMatch n c)).map LeagueRow.id := by
  induction h with
  | nil => rfl
  | cons hxy hrest ih =>
    rename_i x y xs' ys'
    have hpred : leagueKeyMatch n c x = leagueKeyMatch n c y := by
      unfold leagueKeyMatch
      rw [hxy.2.1, hxy.2.2.1]
    by_cases hb : leagueKeyMatch n c y = true
    · rw [List.find?_cons_of_pos _ (hpred ▸ hb), List.find?_cons_of_pos _ hb]
      simp [hxy.1]
    · rw [List.find?_cons_of_neg _ (by rw [hpred]; exact hb), List.find?_cons_of_neg _ hb]
      exact ih

theorem find?_id_congr_T {xs ys : List TeamRow} (h : List.Forall₂ simT xs ys)
    (n : String) :
    (xs.find? (fun t => t.name = n)).map TeamRow.id
      = (ys.find? (fun t => t.name = n)).map TeamRow.id := by
  induction h with
  | nil => rfl
  | cons hxy hrest ih =>
    rename_i x y xs' ys'
    have hpred : (decide (x.name = n)) = (decide (y.name = n)) := by
      rw [hxy.2]
    by_cases hb : (decide (y.name = n)) = true
    · have e1 : (x :: xs').find? (fun t => t.name = n) = some x :=
        List.find?_cons_of_pos _ (hpred ▸ hb)
      have e2 : (y :: ys').find? (fun t => t.name = n) = some y :=
        List.find?_cons_of_pos _ hb
      rw [e1, e2]
      simp [hxy.1]
    · have e1 : (x :: xs').find? (fun t => t.name = n)
          = xs'.find? (fun t => t.name = n) :=
        List.find?_cons_of_neg _ (by rw [hpred]; exact hb)
      have e2 : (y :: ys').find? (fun t => t.name = n)
          = ys'.find? (fun t => t.name = n) :=
        List.find?_cons_of_neg _ hb
      rw [e1, e2]
      exact ih

theorem lookLeagueId_congr {dbA dbB : DB}
    (hL : List.Forall₂ simL dbA.leagues dbB.leagues) (n : String) (c : Option String) :
    lookLeagueId dbA n c = lookLeagueId dbB n c :=
  find?_id_congr_L hL n c

theorem lookTeamId_congr {dbA dbB : DB}
    (hT : List.Forall₂ simT dbA.teams dbB.teams) (n : String) :
    lookTeamId dbA n = lookTeamId dbB n :=
  find?_id_congr_T hT n

theorem lookLid_congr {dbA dbB : DB}
    (hL : List.Forall₂ simL dbA.leagues dbB.leagues) (r : MatchRecord) :
    lookLid dbA r = lookLid dbB r := by
  unfold lookLid
  rcases r.league_name with _ | n
  · rfl
  · by_cases hn : n = "" <;> simp [hn]
    exact lookLeagueId_congr hL n r.league_country

theorem lookTid_congr {dbA dbB : DB}
    (hT : List.Forall₂ simT dbA.teams dbB.teams) (nm : Option String) :
    lookTid dbA nm = lookTid dbB nm := by
  unfold lookTid
  rcases nm with _ | n
  · rfl
  · by_cases hn : n = "" <;> simp [hn]
    exact lookTeamId_congr hT n

/-! ## Claim C1: the second pass leaves the entity tables similar -/

theorem forall₂_simL_map_upd {xs ys : List LeagueRow}
    (h : List.Forall₂ simL xs ys) (lo : Option String) (i : Nat) :
    List.Forall₂ simL (xs.map (updLeagueLogo lo i)) ys := by
  induction h with
  | nil => exact List.Forall₂.nil
  | cons hxy hrest ih =>
    refine List.Forall₂.cons ?_ ih
    rename_i x y xs' ys'
    unfold updLeagueLogo
    by_cases hx : x.id = i
    · rw [if_pos hx]
      exact hxy
    · rw [if_neg hx]
      exact hxy

theorem forall₂_simT_map_upd {xs ys : List TeamRow}
    (h : List.Forall₂ simT xs ys) (lo : Option String) (i : Nat) :
    List.Forall₂ simT (xs.map (updTeamLogo lo i)) ys := by
  induction h with
  | nil => exact List.Forall₂.nil
  | cons hxy hrest ih =>
    refine List.Forall₂.cons ?_ ih
    rename_i x y xs' ys'
    unfold updTeamLogo
    by_cases hx : x.id = i
    · rw [if_pos hx]
      exact hxy
    · rw [if_neg hx]
      exact hxy

theorem gcl_sim_of_present {t db1 : DB} {n : String} {c : Option String} {k : Nat}
    (hL : List.Forall₂ simL t.leagues db1.leagues) (hn : n ≠ "")
    (hk : lookLeagueId db1 n c = some k) (f lo : Option String) :
    List.Forall₂ simL (get_or_create_league (some n) c f lo t).2.leagues db1.leagues := by
  have ht : lookLeagueId t n c = some k := by
    rw [lookLeagueId_congr hL n c]
    exact hk
  obtain ⟨l, hl, -⟩ := Option.map_eq_some'.mp ht
  rw [gcl_eq_found hn hl f lo]
  split
  · exact forall₂_simL_map_upd hL lo l.id
  · exact hL

theorem gct_sim_of_present {t db1 : DB} {n : String} {k : Nat}
    (hT : List.Forall₂ simT t.teams db1.teams) (hn : n ≠ "")
    (hk : lookTeamId db1 n = some k) (lo : Option String) :
    List.Forall₂ simT (get_or_create_team (some n) lo t).2.teams db1.teams := by
  have ht : lookTeamId t n = some k := by
    rw [lookTeamId_congr hT n]
    exact hk
  obtain ⟨tm, hl, -⟩ := Option.map_eq_some'.mp ht
  rw [gct_eq_found hn hl lo]
  split
  · exact forall₂_simT_map_upd hT lo tm.id
  · exact hT

theorem run_tables_sim (now : Nat) (recs : List MatchRecord) (t db1 : DB)
    (hgood : ∀ r ∈ recs, GoodRec r)
    (hpres : ∀ r ∈ recs, ∀ mid, r.match_id = some mid →
      (∀ n, r.league_name = some n → n ≠ "" →
        ∃ k, lookLeagueId db1 n r.league_country = some k)
      ∧ (∀ n, r.home_team_name = some n → n ≠ "" → ∃ k, lookTeamId db1 n = some k)
      ∧ (∀ n, r.away_team_name = some n → n ≠ "" → ∃ k, lookTeamId db1 n = some k))
    (hL : List.Forall₂ simL t.leagues db1.leagues)
    (hT : List.Forall₂ simT t.teams db1.teams) :
    List.Forall₂ simL (run_batch now recs t).leagues db1.leagues
    ∧ List.Forall₂ simT (run_batch now recs t).teams db1.teams := by
  induction recs generalizing t with
  | nil => exact ⟨hL, hT⟩
  | cons r rs ih =>
    rw [run_batch_cons]
    have hstep : List.Forall₂ simL (insert_or_update_match now r t).2.leagues db1.leagues
        ∧ List.Forall₂ simT (insert_or_update_match now r t).2.teams db1.teams := by
      rcases hmid : r.match_id with _ | mid
      · rw [ium_eq_rollback now t hmid]
        exact ⟨hL, hT⟩
      · have hres := ium_tables now t hmid
        have hprr := hpres r (List.mem_cons_self r rs) mid hmid
        constructor
        · rw [hres.1]
          unfold resolvedDB
          rw [(gct_other _ _ _).1, (gct_other _ _ _).1]
          rcases hname : r.league_name with _ | n
          · exact hL
          · by_cases hn : n = ""
            · subst hn
              exact hL
            · obtain ⟨k, hk⟩ := hprr.1 n hname hn
              exact gcl_sim_of_present hL hn hk _ _
        · rw [hres.2]
          unfold resolvedDB
          have h0 : List.Forall₂ simT
              (get_or_create_league r.league_name r.league_country r.league_flag_class
                r.league_logo_url t).2.teams db1.teams := by
            rw [(gcl_other _ _ _ _ _).1]
            exact hT
          have h1 : List.Forall₂ simT
              (get_or_create_team r.home_team_name r.home_team_logo_url
                (get_or_create_league r.league_name r.league_country r.league_flag_class
                  r.league_logo_url t).2).2.teams db1.teams := by
            rcases hname : r.home_team_name with _ | n
            · exact h0
            · by_cases hn : n = ""
              · subst hn
                exact h0
              · obtain ⟨k, hk⟩ := hprr.2.1 n hname hn
                exact gct_sim_of_present h0 hn hk _
          rcases hname2 : r.away_team_name with _ | n
          · exact h1
          · by_cases hn : n = ""
            · subst hn
              exact h1
            · obtain ⟨k, hk⟩ := hprr.2.2 n hname2 hn
              exact gct_sim_of_present h1 hn hk _
    exact ih (insert_or_update_match now r t).2
      (fun x hx => hgood x (List.mem_cons_of_mem r hx))
      (fun x hx => hpres x (List.mem_cons_of_mem r hx))
      hstep.1 hstep.2

/-! ## Claim C1: the pure fold under equal lookups and full presence -/

theorem pureUpsertRow_congr {dbA dbB : DB} (now : Nat) (r : MatchRecord)
    (hL : lookLid dbA r = lookLid dbB r)
    (hH : lookTid dbA r.home_team_name = lookTid dbB r.home_team_name)
    (hA : lookTid dbA r.away_team_name = lookTid dbB r.away_team_name)
    (st : List MatchRow × Nat) :
    pureUpsertRow dbA now r st = pureUpsertRow dbB now r st := by
  obtain ⟨ms, ctr⟩ := st
  unfold pureUpsertRow writtenVals
  rw [hL, hH, hA]

theorem pureFold_congr {dbA dbB : DB} (now : Nat) (recs : List MatchRecord)
    (h : ∀ r ∈ recs, lookLid dbA r = lookLid dbB r
      ∧ lookTid dbA r.home_team_name = lookTid dbB r.home_team_name
      ∧ lookTid dbA r.away_team_name = lookTid dbB r.away_team_name)
    (st : List MatchRow × Nat) :
    pureFold dbA now recs st = pureFold dbB now recs st := by
  induction recs generalizing st with
  | nil => rfl
  | cons r rs ih =>
    rw [pureFold_cons, pureFold_cons]
    have hr := h r (List.mem_cons_self r rs)
    rw [pureUpsertRow_congr now r hr.1 hr.2.1 hr.2.2]
    exact ih (fun x hx => h x (List.mem_cons_of_mem r hx)) _

theorem writtenVals_match_id (dbL : DB) (now : Nat) (r : MatchRecord) (m : MatchRow) :
    (writtenVals dbL now r m).match_id = m.match_id := rfl

theorem writtenVals_writtenVals (dbL dbM : DB) (now now' : Nat) (r r' : MatchRecord)
    (m : MatchRow) :
    writtenVals dbL now r (writtenVals dbM now' r' m) = writtenVals dbL now r m := rfl

theorem writtenVals_insertRow (dbL : DB) (now : Nat) (r : MatchRecord) (mid : String)
    (ctr : Nat) :
    writtenVals dbL now r
      (insertRowVals r mid (lookLid dbL r) (lookTid dbL r.home_team_name)
        (lookTid dbL r.away_team_name) now ctr)
      = insertRowVals r mid (lookLid dbL r) (lookTid dbL r.home_team_name)
          (lookTid dbL r.away_team_name) now ctr := rfl

/-- Last-write transformation a batch applies to one stored row. -/
def tfm (dbL : DB) (now : Nat) (recs : List MatchRecord) (m : MatchRow) : MatchRow :=
  match lastRecWith recs m.match_id with
  | some r => writtenVals dbL now r m
  | none => m

theorem tfm_match_id (dbL : DB) (now : Nat) (recs : List MatchRecord) (m : MatchRow) :
    (tfm dbL now recs m).match_id = m.match_id := by
  unfold tfm
  cases lastRecWith recs m.match_id
  · rfl
  · exact writtenVals_match_id dbL now _ m

theorem lastRecWith_append_none {r : MatchRecord} (init : List MatchRecord) (k : String)
    (hmid : r.match_id = none) :
    lastRecWith (init ++ [r]) k = lastRecWith init k := by
  unfold lastRecWith
  rw [List.reverse_append]
  simp only [List.reverse_cons, List.reverse_nil, List.nil_append, List.singleton_append]
  have e : (r :: init.reverse).find? (fun x => x.match_id = some k)
      = init.reverse.find? (fun x => x.match_id = some k) :=
    List.find?_cons_of_neg _ (by rw [hmid]; simp)
  rw [e]

theorem lastRecWith_append_ne {r : MatchRecord} {mid : String} (init : List MatchRecord)
    (k : String) (hmid : r.match_id = some mid) (hne : ¬ mid = k) :
    lastRecWith (init ++ [r]) k = lastRecWith init k := by
  unfold lastRecWith
  rw [List.reverse_append]
  simp only [List.reverse_cons, List.reverse_nil, List.nil_append, List.singleton_append]
  have e : (r :: init.reverse).find? (fun x => x.match_id = some k)
      = init.reverse.find? (fun x => x.match_id = some k) :=
    List.find?_cons_of_neg _ (by rw [hmid]; simp [hne])
  rw [e]

theorem lastRecWith_append_self {r : MatchRecord} {mid : String} (init : List MatchRecord)
    (hmid : r.match_id = some mid) :
    lastRecWith (init ++ [r]) mid = some r := by
  unfold lastRecWith
  rw [List.reverse_append]
  simp only [List.reverse_cons, List.reverse_nil, List.nil_append, List.singleton_append]
  exact List.find?_cons_of_pos _ (by rw [hmid]; simp)

theorem pureFold_append_one (dbL : DB) (now : Nat) (init : List MatchRecord)
    (r : MatchRecord) (st : List MatchRow × Nat) :
    pureFold dbL now (init ++ [r]) st = pureUpsertRow dbL now r (pureFold dbL now init st) := by
  unfold pureFold
  rw [List.foldl_append]
  rfl

theorem pureFold_all_present (dbL : DB) (now : Nat) (recs : List MatchRecord)
    (ms : List MatchRow) (ctr : Nat)
    (hpres : ∀ r ∈ recs, ∀ mid, r.match_id = some mid → ∃ row ∈ ms, row.match_id = mid) :
    pureFold dbL now recs (ms, ctr) = (ms.map (tfm dbL now recs), ctr) := by
  induction recs using List.reverseRecOn with
  | nil =>
    show (ms, ctr) = (ms.map (tfm dbL now []), ctr)
    have : ms.map (tfm dbL now []) = ms := by
      have he : ∀ m ∈ ms, tfm dbL now [] m = m := by
        intro m _
        rfl
      rw [List.map_congr_left he]
      exact List.map_id' ms
    rw [this]
  | append_singleton init r ih =>
    rw [pureFold_append_one,
      ih (fun x hx mid hm => hpres x (List.mem_append_left [r] hx) mid hm)]
    rcases hmid : r.match_id with _ | mid
    · simp only [pureUpsertRow, hmid]
      have he : ∀ m ∈ ms, tfm dbL now init m = tfm dbL now (init ++ [r]) m := by
        intro m _
        unfold tfm
        rw [lastRecWith_append_none init _ hmid]
      rw [List.map_congr_left he]
    · obtain ⟨row0, hrow0, hkey0⟩ := hpres r (List.mem_append_right init (List.mem_singleton.mpr rfl)) mid hmid
      have hpresent : ∃ row' ∈ ms.map (tfm dbL now init), row'.match_id = mid := by
        refine ⟨tfm dbL now init row0, List.mem_map_of_mem _ hrow0, ?_⟩
        rw [tfm_match_id]
        exact hkey0
      rcases hfind : (ms.map (tfm dbL now init)).find? (fun m => m.match_id = mid) with _ | m0
      · obtain ⟨row', hrow', hkey'⟩ := hpresent
        have := List.find?_eq_none.mp hfind row' hrow'
        simp [hkey'] at this
      · simp only [pureUpsertRow, hmid, hfind]
        rw [List.map_map]
        have he : ∀ m ∈ ms,
            ((fun m => if m.match_id = mid then writtenVals dbL now r m else m) ∘
              tfm dbL now init) m = tfm dbL now (init ++ [r]) m := by
          intro m _
          simp only [Function.comp_apply]
          by_cases hk : m.match_id = mid
          · rw [if_pos (by rw [tfm_match_id]; exact hk)]
            have h1 : writtenVals dbL now r (tfm dbL now init m) = writtenVals dbL now r m := by
              unfold tfm
              cases lastRecWith init m.match_id
              · rfl
              · exact writtenVals_writtenVals dbL dbL now now r _ m
            rw [h1]
            unfold tfm
            rw [hk, lastRecWith_append_self init hmid]
          · rw [if_neg (by rw [tfm_match_id]; exact hk)]
            unfold tfm
            rw [lastRecWith_append_ne init _ hmid (fun he' => hk (by rw [he']) )]
        rw [List.map_congr_left he]

/-! ## Claim C1: every touched row holds its last write -/

theorem pureFold_last_vals (dbL : DB) (now : Nat) (recs : List MatchRecord)
    (ms : List MatchRow) (ctr : Nat) :
    ∀ row ∈ (pureFold dbL now recs (ms, ctr)).1, ∀ r',
      lastRecWith recs row.match_id = some r' → row = writtenVals dbL now r' row := by
  induction recs using List.reverseRecOn with
  | nil =>
    intro row hrow r' hlast
    cases hlast
  | append_singleton init r ih =>
    intro row hrow r' hlast
    rw [pureFold_append_one] at hrow
    rcases hmid : r.match_id with _ | mid
    · rw [lastRecWith_append_none init _ hmid] at hlast
      simp only [pureUpsertRow, hmid] at hrow
      exact ih row hrow r' hlast
    · simp only [pureUpsertRow, hmid] at hrow
      rcases hfind : (pureFold dbL now init (ms, ctr)).1.find? (fun m => m.match_id = mid)
        with _ | m0
      · rw [hfind] at hrow
        simp only [] at hrow
        rcases List.mem_append.mp hrow with hold | hnew
        · have hne : ¬ mid = row.match_id := by
            intro he
            have := List.find?_eq_none.mp hfind row hold
            simp [← he] at this
          rw [lastRecWith_append_ne init _ hmid hne] at hlast
          exact ih row hold r' hlast
        · have hrow' := List.mem_singleton.mp hnew
          have hkey : row.match_id = mid := by
            rw [hrow']
            rfl
          rw [hkey, lastRecWith_append_self init hmid] at hlast
          cases hlast
          rw [hrow']
          exact (writtenVals_insertRow dbL now r mid _).symm
      · rw [hfind] at hrow
        simp only [] at hrow
        obtain ⟨m, hm, hmap⟩ := List.mem_map.mp hrow
        by_cases hk : m.match_id = mid
        · rw [if_pos hk] at hmap
          have hkey : row.match_id = mid := by
            rw [← hmap]
            exact hk
          rw [hkey, lastRecWith_append_self init hmid] at hlast
          cases hlast
          rw [← hmap]
          exact (writtenVals_writtenVals dbL dbL now now r r m).symm
        · rw [if_neg hk] at hmap
          subst hmap
          rw [lastRecWith_append_ne init _ hmid (fun he => hk (he ▸ rfl))] at hlast
          exact ih m hm r' hlast

/-! ## Claim C1: batch keys are present after the fold -/

theorem pureUpsertRow_key_mono (dbL : DB) (now : Nat) (r : MatchRecord) {mid : String}
    (st : List MatchRow × Nat) (h : ∃ row ∈ st.1, row.match_id = mid) :
    ∃ row ∈ (pureUpsertRow dbL now r st).1, row.match_id = mid := by
  obtain ⟨ms, ctr⟩ := st
  obtain ⟨row, hrow, hkey⟩ := h
  rcases hmid : r.match_id with _ | mid'
  · exact ⟨row, by simp [pureUpsertRow, hmid]; exact hrow, hkey⟩
  · rcases hfind : ms.find? (fun m => m.match_id = mid') with _ | m0
    · refine ⟨row, ?_, hkey⟩
      simp only [pureUpsertRow, hmid, hfind]
      exact List.mem_append_left _ hrow
    · refine ⟨if row.match_id = mid' then writtenVals dbL now r row else row, ?_, ?_⟩
      · simp only [pureUpsertRow, hmid, hfind]
        exact List.mem_map_of_mem _ hrow
      · by_cases hk : row.match_id = mid'
        · rw [if_pos hk, writtenVals_match_id]
          exact hkey
        · rw [if_neg hk]
          exact hkey

theorem pureFold_key_mono (dbL : DB) (now : Nat) (recs : List MatchRecord) {mid : String}
    (st : List MatchRow × Nat) (h : ∃ row ∈ st.1, row.match_id = mid) :
    ∃ row ∈ (pureFold dbL now recs st).1, row.match_id = mid := by
  induction recs generalizing st with
  | nil => exact h
  | cons r rs ih =>
    rw [pureFold_cons]
    exact ih _ (pureUpsertRow_key_mono dbL now r st h)

theorem pureFold_key_present (dbL : DB) (now : Nat) (recs : List MatchRecord)
    (st : List MatchRow × Nat) {r : MatchRecord} {mid : String}
    (hr : r ∈ recs) (hmid : r.match_id = some mid) :
    ∃ row ∈ (pureFold dbL now recs st).1, row.match_id = mid := by
  induction recs generalizing st with
  | nil => cases hr
  | cons r0 rs ih =>
    rw [pureFold_cons]
    rcases List.mem_cons.mp hr with rfl | hr'
    · refine pureFold_key_mono dbL now rs _ ?_
      obtain ⟨ms, ctr⟩ := st
      rcases hfind : ms.find? (fun m => m.match_id = mid) with _ | m0
      · refine ⟨insertRowVals r mid (lookLid dbL r) (lookTid dbL r.home_team_name)
          (lookTid dbL r.away_team_name) now ctr, ?_, rfl⟩
        simp only [pureUpsertRow, hmid, hfind]
        exact List.mem_append_right _ (List.mem_singleton.mpr rfl)
      · have hm0 : m0 ∈ ms := List.mem_of_find?_eq_some hfind
        have hkey : m0.match_id = mid := by
          have := List.find?_some hfind
          simpa using this
        refine ⟨if m0.match_id = mid then writtenVals dbL now r m0 else m0, ?_, ?_⟩
        · simp only [pureUpsertRow, hmid, hfind]
          exact List.mem_map_of_mem _ hm0
        · rw [if_pos hkey, writtenVals_match_id]
          exact hkey
    · exact ih _ hr'

/-! ## Claim C1: assembly -/

theorem simM_refl (m : MatchRow) : simM m m :=
  ⟨rfl, rfl, rfl, rfl, rfl, rfl, rfl, rfl, rfl, rfl, rfl, rfl, rfl, rfl, rfl, rfl,
   rfl, rfl, rfl, rfl, rfl, rfl, rfl, rfl, rfl, rfl⟩

theorem simM_written (dbL : DB) (n2 n1 : Nat) (r : MatchRecord) (m : MatchRow) :
    simM (writtenVals dbL n2 r m) (writtenVals dbL n1 r m) :=
  ⟨rfl, rfl, rfl, rfl, rfl, rfl, rfl, rfl, rfl, rfl, rfl, rfl, rfl, rfl, rfl, rfl,
   rfl, rfl, rfl, rfl, rfl, rfl, rfl, rfl, rfl, rfl⟩

theorem forall₂_map_self {α : Type} {R : α → α → Prop} {f : α → α} :
    ∀ (l : List α), (∀ x ∈ l, R (f x) x) → List.Forall₂ R (l.map f) l
  | [], _ => List.Forall₂.nil
  | x :: xs, h =>
    List.Forall₂.cons (h x (List.mem_cons_self x xs))
      (forall₂_map_self xs (fun y hy => h y (List.mem_cons_of_mem x hy)))

theorem run_batch_twice_sim (now1 now2 : Nat) (recs : List MatchRecord) (db0 : DB)
    (hgood : ∀ r ∈ recs, GoodRec r) :
    List.Forall₂ simM (run_batch now2 recs (run_batch now1 recs db0)).matchRows
      (run_batch now1 recs db0).matchRows := by
  have hchar1 := run_batch_char now1 recs db0 hgood
  have hchar2 := run_batch_char now2 recs (run_batch now1 recs db0) hgood
  have hpres : ∀ r ∈ recs, ∀ mid, r.match_id = some mid →
      (∀ n, r.league_name = some n → n ≠ "" →
        ∃ k, lookLeagueId (run_batch now1 recs db0) n r.league_country = some k)
      ∧ (∀ n, r.home_team_name = some n → n ≠ "" →
        ∃ k, lookTeamId (run_batch now1 recs db0) n = some k)
      ∧ (∀ n, r.away_team_name = some n → n ≠ "" →
        ∃ k, lookTeamId (run_batch now1 recs db0) n = some k) := by
    intro r hr mid hmid
    refine ⟨?_, ?_, ?_⟩
    · intro n hname hn
      have hcn : r.league_country ≠ none := by
        rcases hgood r hr with h | h | h
        · rw [hmid] at h
          cases h
        · rw [hname] at h
          simp [pyFalsyOpt] at h
          exact absurd h hn
        · exact h
      exact run_present_league now1 recs db0 hr hmid hname hn hcn
    · intro n hname hn
      exact run_present_home now1 recs db0 hr hmid hname hn
    · intro n hname hn
      exact run_present_away now1 recs db0 hr hmid hname hn
  have htab := run_tables_sim now2 recs (run_batch now1 recs db0) (run_batch now1 recs db0)
    hgood hpres
    (List.forall₂_same.mpr (fun x _ => ⟨rfl, rfl, rfl, rfl⟩))
    (List.forall₂_same.mpr (fun x _ => ⟨rfl, rfl⟩))
  have hagree : ∀ r ∈ recs,
      lookLid (run_batch now2 recs (run_batch now1 recs db0)) r
        = lookLid (run_batch now1 recs db0) r
      ∧ lookTid (run_batch now2 recs (run_batch now1 recs db0)) r.home_team_name
        = lookTid (run_batch now1 recs db0) r.home_team_name
      ∧ lookTid (run_batch now2 recs (run_batch now1 recs db0)) r.away_team_name
        = lookTid (run_batch now1 recs db0) r.away_team_name := by
    intro r _
    exact ⟨lookLid_congr htab.1 r, lookTid_congr htab.2 _, lookTid_congr htab.2 _⟩
  have h1 : (run_batch now1 recs db0).matchRows
      = (pureFold (run_batch now1 recs db0) now1 recs
          (db0.matchRows, db0.nextMatchRowId)).1 := congrArg Prod.fst hchar1
  have hkeys : ∀ r ∈ recs, ∀ mid, r.match_id = some mid →
      ∃ row ∈ (run_batch now1 recs db0).matchRows, row.match_id = mid := by
    intro r hr mid hmid
    rw [h1]
    exact pureFold_key_present _ now1 recs _ hr hmid
  have h2 : (run_batch now2 recs (run_batch now1 recs db0)).matchRows
      = ((run_batch now1 recs db0).matchRows.map
          (tfm (run_batch now1 recs db0) now2 recs)) := by
    have e1 : (run_batch now2 recs (run_batch now1 recs db0)).matchRows
        = (pureFold (run_batch now2 recs (run_batch now1 recs db0)) now2 recs
            ((run_batch now1 recs db0).matchRows,
             (run_batch now1 recs db0).nextMatchRowId)).1 := congrArg Prod.fst hchar2
    rw [e1, pureFold_congr now2 recs hagree
      ((run_batch now1 recs db0).matchRows, (run_batch now1 recs db0).nextMatchRowId),
      pureFold_all_present (run_batch now1 recs db0) now2 recs _ _ hkeys]
  rw [h2]
  refine forall₂_map_self _ ?_
  intro row hrow
  unfold tfm
  rcases hlast : lastRecWith recs row.match_id with _ | r'
  · exact simM_refl row
  · have hd : row = writtenVals (run_batch now1 recs db0) now1 r' row :=
      pureFold_last_vals _ now1 recs _ _ row (h1 ▸ hrow) r' hlast
    have hs := simM_written (run_batch now1 recs db0) now2 now1 r' row
    rw [← hd] at hs
    exact hs

theorem countKey_upsert (now : Nat) (r : MatchRecord) (db : DB) (k : String) :
    countKey (insert_or_update_match now r db).2 k ≤ max (countKey db k) 1 := by
  rcases hmid : r.match_id with _ | mid
  · rw [ium_eq_rollback now db hmid]
    exact le_max_left _ _
  · rcases hfind : (resolvedDB r db).matchRows.find? (fun m => m.match_id = mid)
      with _ | m0
    · rw [ium_eq_insert now hmid hfind]
      unfold countKey
      show (((resolvedDB r db).matchRows ++
        [insertRowVals r mid (resolvedLid r db) (resolvedHid r db) (resolvedAid r db)
          now (resolvedDB r db).nextMatchRowId]).filter
            (fun m => m.match_id = k)).length ≤ max ((db.matchRows.filter
              (fun m => m.match_id = k)).length) 1
      rw [List.filter_append, (resolvedDB_matchRows r db).1, List.length_append]
      by_cases hk : k = mid
      · subst hk
        have hnil : db.matchRows.filter (fun m => m.match_id = k) = [] := by
          rw [List.filter_eq_nil_iff]
          intro m hm
          have := List.find?_eq_none.mp (by
            rw [(resolvedDB_matchRows r db).1] at hfind
            exact hfind) m hm
          simpa using this
        rw [hnil]
        simp [insertRowVals_match_id]
      · have hnil : ([insertRowVals r mid (resolvedLid r db) (resolvedHid r db)
            (resolvedAid r db) now (resolvedDB r db).nextMatchRowId].filter
              (fun m => m.match_id = k)) = [] := by
          rw [List.filter_eq_nil_iff]
          intro m hm
          rcases List.mem_singleton.mp hm with rfl
          simp [insertRowVals_match_id]
          intro he
          exact absurd he.symm hk
        rw [hnil]
        simp
    · rw [ium_eq_update now hmid hfind]
      unfold countKey
      show (((resolvedDB r db).matchRows.map
        (fun m => if m.match_id = mid then
          updateRowVals r (resolvedLid r db) (resolvedHid r db) (resolvedAid r db) now m
          else m)).filter (fun m => m.match_id = k)).length
        ≤ max ((db.matchRows.filter (fun m => m.match_id = k)).length) 1
      rw [(resolvedDB_matchRows r db).1, List.filter_map, List.length_map]
      have hp : ((fun m : MatchRow => decide (m.match_id = k)) ∘
          (fun m => if m.match_id = mid then
            updateRowVals r (resolvedLid r db) (resolvedHid r db) (resolvedAid r db) now m
            else m))
          = fun m : MatchRow => decide (m.match_id = k) := by
        funext m
        simp only [Function.comp_apply]
        by_cases hm : m.match_id = mid
        · rw [if_pos hm, updateRowVals_match_id]
        · rw [if_neg hm]
      rw [hp]
      exact le_max_left _ _

/-! ## Claim C1 -/

/-- C1 (corrected).  For every batch in which each record either fails
outright, carries no league name, or carries a non-null league country,
upserting the batch twice produces the same matches-table row count and
pairwise identical field values except `updated_at`; and unconditionally,
one upsert never makes a second row with an already-stored `match_id`
(the per-key row count never exceeds the larger of its previous value
and one). -/
theorem C1_double_upsert_idempotent (now1 now2 : Nat) (recs : List MatchRecord)
    (db0 : DB) (hgood : ∀ r ∈ recs, GoodRec r) :
    ((run_batch now2 recs (run_batch now1 recs db0)).matchRows.length
      = (run_batch now1 recs db0).matchRows.length)
    ∧ List.Forall₂ simM (run_batch now2 recs (run_batch now1 recs db0)).matchRows
        (run_batch now1 recs db0).matchRows
    ∧ (∀ now r db k, countKey (insert_or_update_match now r db).2 k
        ≤ max (countKey db k) 1) :=
  have h := run_batch_twice_sim now1 now2 recs db0 hgood
  ⟨h.length_eq, h, fun now r db k => countKey_upsert now r db k⟩

/-- Witness for C1 at a concrete batch: one record with identifier `m9`
and no league name, saved twice from the empty database. -/
theorem C1_double_upsert_idempotent_witness :
    ((run_batch 2 [c9rec] (run_batch 1 [c9rec] emptyDB)).matchRows.length
      = (run_batch 1 [c9rec] emptyDB).matchRows.length)
    ∧ List.Forall₂ simM (run_batch 2 [c9rec] (run_batch 1 [c9rec] emptyDB)).matchRows
        (run_batch 1 [c9rec] emptyDB).matchRows
    ∧ countKey (insert_or_update_match 3 c9rec (run_batch 1 [c9rec] emptyDB)).2 "m9"
        ≤ max (countKey (run_batch 1 [c9rec] emptyDB) "m9") 1 :=
  have h := C1_double_upsert_idempotent 1 2 [c9rec] emptyDB
    (by
      intro r hr
      rcases List.mem_singleton.mp hr with rfl
      right
      left
      rfl)
  ⟨h.1, h.2.1, h.2.2 3 c9rec (run_batch 1 [c9rec] emptyDB) "m9"⟩

/-- Record with a league name but a null country, the case the claim as
stated does not survive. -/
def c1cexRec : MatchRecord :=
  { match_id := some "m1", match_url := none, league_name := some "X",
    league_country := none, league_flag_class := none, league_logo_url := none,
    match_time := none, scheduled_datetime := none, home_team_name := none,
    home_team_logo_url := none, away_team_name := none, away_team_logo_url := none,
    home_score := none, away_score := none, home_red_cards := none,
    away_red_cards := none, match_status := some "unknown", match_stage := none,
    is_live := false, is_scheduled := false, is_finished := false,
    is_canceled := false, is_postponed := false, has_tv_icon := false,
    has_audio_icon := false, has_info_icon := false, half_time := none,
    current_minute := none } 

/-- Counterexample to C1 as stated: upserting the batch `[c1cexRec]`
(league "X", null country) twice keeps the row count at one but changes
the stored `league_id` from 1 to 2 — the null-country league is re-created
on the second pass, so the field values are not identical except
`updated_at`. -/
theorem C1_null_country_changes_league_cex :
    (run_batch 1 [c1cexRec] emptyDB).matchRows.map MatchRow.league_id = [some 1]
    ∧ (run_batch 2 [c1cexRec] (run_batch 1 [c1cexRec] emptyDB)).matchRows.map
        MatchRow.league_id = [some 2]
    ∧ (some (1 : Nat) : Option Nat) ≠ some 2
    ∧ (run_batch 2 [c1cexRec] (run_batch 1 [c1cexRec] emptyDB)).matchRows.length
        = (run_batch 1 [c1cexRec] emptyDB).matchRows.length := by
  refine ⟨rfl, rfl, ?_, rfl⟩
  decide
